import Mathlib

/-!
Verification of the ncaa-backend ingestion-and-projection pipeline.

Shallow embedding of the TypeScript source:
* `src/lib/calculations.ts` — pure projection math (numbers modelled as `ℚ`);
* `src/jobs/schedule-sync.ts` — season derivation and idempotent upserts;
* the game processor (`processCompletedGames`) and rollup aggregator;
* the national-averages builder.

Stateful Prisma operations are modelled by explicit state passing over a
`DB` record of row lists; upserts are find-then-map-or-append, exactly
mirroring the source; JS nullable numbers are `Option` values and the
JS nullish-coalescing operator is an `Option` match.
-/

/-! ## Pure calculation layer (src/lib/calculations.ts) -/

/-- Per-game team stats (the `TeamStats` type of the source), floats as `ℚ`. -/
structure TeamStats where
  off2ptm : ℚ
  off2pta : ℚ
  off3ptm : ℚ
  off3pta : ℚ
  offFtm : ℚ
  offFta : ℚ
  def2ptmAllowed : ℚ
  def2ptaAllowed : ℚ
  def3ptmAllowed : ℚ
  def3ptaAllowed : ℚ
  defFtmAllowed : ℚ
  defFtaAllowed : ℚ
deriving DecidableEq, Repr

/-- National per-game averages record (the `NationalAveragesData` type). -/
structure NationalAveragesData where
  natOff2ptmPg : ℚ
  natOff2ptaPg : ℚ
  natOff3ptmPg : ℚ
  natOff3ptaPg : ℚ
  natOffFtmPg : ℚ
  natOffFtaPg : ℚ
  natDef2ptmAllowedPg : ℚ
  natDef2ptaAllowedPg : ℚ
  natDef3ptmAllowedPg : ℚ
  natDef3ptaAllowedPg : ℚ
  natDefFtmAllowedPg : ℚ
  natDefFtaAllowedPg : ℚ
  natPointsPgPerTeam : ℚ
deriving DecidableEq, Repr

/-- Differentials of a team against the national averages. -/
structure TeamDifferentials where
  off2ptDiff : ℚ
  off3ptDiff : ℚ
  offFtDiff : ℚ
  def2ptDiff : ℚ
  def3ptDiff : ℚ
  defFtDiff : ℚ
deriving DecidableEq, Repr

/-- calculateDifferentials from src/lib/calculations.ts. -/
def calculateDifferentials (teamStats : TeamStats) (nationals : NationalAveragesData) :
    TeamDifferentials :=
  let off2ptDiff := (teamStats.off2ptm + teamStats.off2pta) -
    (nationals.natOff2ptmPg + nationals.natOff2ptaPg)
  let def2ptDiff := (teamStats.def2ptmAllowed + teamStats.def2ptaAllowed) -
    (nationals.natDef2ptmAllowedPg + nationals.natDef2ptaAllowedPg)
  let off3ptDiff := (teamStats.off3ptm + teamStats.off3pta) -
    (nationals.natOff3ptmPg + nationals.natOff3ptaPg)
  let def3ptDiff := (teamStats.def3ptmAllowed + teamStats.def3ptaAllowed) -
    (nationals.natDef3ptmAllowedPg + nationals.natDef3ptaAllowedPg)
  let offFtDiff := (teamStats.offFtm + teamStats.offFta) -
    (nationals.natOffFtmPg + nationals.natOffFtaPg)
  let defFtDiff := (teamStats.defFtmAllowed + teamStats.defFtaAllowed) -
    (nationals.natDefFtmAllowedPg + nationals.natDefFtaAllowedPg)
  { off2ptDiff := off2ptDiff
    off3ptDiff := off3ptDiff
    offFtDiff := offFtDiff
    def2ptDiff := def2ptDiff
    def3ptDiff := def3ptDiff
    defFtDiff := defFtDiff }

/-- Per-category adjustments of the expected-points computation. -/
structure Adjustments where
  twoPoint : ℚ
  threePoint : ℚ
  freeThrow : ℚ
deriving DecidableEq, Repr

/-- Result record of calculateTeamExpected. -/
structure TeamExpected where
  adjustments : Adjustments
  expectedPoints : ℚ
deriving DecidableEq, Repr

/-- calculateTeamExpected from src/lib/calculations.ts.  Weights 1.5 and 0.5
are the exact rationals 3/2 and 1/2. -/
def calculateTeamExpected (teamDiffs : TeamDifferentials) (opponentDiffs : TeamDifferentials)
    (natPointsPerTeam : ℚ) : TeamExpected :=
  let twoPointAdj := (teamDiffs.off2ptDiff + opponentDiffs.def2ptDiff) / 2
  let threePointAdj := (3 / 2 : ℚ) * ((teamDiffs.off3ptDiff + opponentDiffs.def3ptDiff) / 2)
  let freeThrowAdj := (1 / 2 : ℚ) * ((teamDiffs.offFtDiff + opponentDiffs.defFtDiff) / 2)
  let totalAdjustment := twoPointAdj + threePointAdj + freeThrowAdj
  let expectedPoints := natPointsPerTeam + totalAdjustment
  { adjustments :=
      { twoPoint := twoPointAdj
        threePoint := threePointAdj
        freeThrow := freeThrowAdj }
    expectedPoints := expectedPoints }

/-- Per-team part of the calculateGameTotal breakdown. -/
structure TeamBreakdown where
  name : String
  expectedPoints : ℚ
  adjustments : Adjustments
  differentials : TeamDifferentials
deriving DecidableEq, Repr

/-- Result record of calculateGameTotal (the `CalculationBreakdown` type). -/
structure CalculationBreakdown where
  team1 : TeamBreakdown
  team2 : TeamBreakdown
  expectedTotal : ℚ
  nationalAverages : NationalAveragesData
deriving DecidableEq, Repr

/-- calculateGameTotal from src/lib/calculations.ts. -/
def calculateGameTotal (team1Stats : TeamStats) (team1Name : String)
    (team2Stats : TeamStats) (team2Name : String)
    (nationals : NationalAveragesData) : CalculationBreakdown :=
  let team1Diffs := calculateDifferentials team1Stats nationals
  let team2Diffs := calculateDifferentials team2Stats nationals
  let team1Expected := calculateTeamExpected team1Diffs team2Diffs nationals.natPointsPgPerTeam
  let team2Expected := calculateTeamExpected team2Diffs team1Diffs nationals.natPointsPgPerTeam
  let expectedTotal := team1Expected.expectedPoints + team2Expected.expectedPoints
  { team1 :=
      { name := team1Name
        expectedPoints := team1Expected.expectedPoints
        adjustments := team1Expected.adjustments
        differentials := team1Diffs }
    team2 :=
      { name := team2Name
        expectedPoints := team2Expected.expectedPoints
        adjustments := team2Expected.adjustments
        differentials := team2Diffs }
    expectedTotal := expectedTotal
    nationalAverages := nationals }

/-- Result of derive2ptFromFg. -/
structure TwoPtStats where
  twoPtm : Int
  twoPta : Int
deriving DecidableEq, Repr

/-- derive2ptFromFg from src/lib/calculations.ts: 2PTM = FGM − 3PTM, 2PTA = FGA − 3PTA. -/
def derive2ptFromFg (fgm fga threePtm threePta : Int) : TwoPtStats :=
  { twoPtm := fgm - threePtm
    twoPta := fga - threePta }

/-- Season-totals input of calculatePerGameAverages (the anonymous totals
parameter type of the source). -/
structure SeasonTotals where
  gamesPlayed : Nat
  off2ptmTotal : Int
  off2ptaTotal : Int
  off3ptmTotal : Int
  off3ptaTotal : Int
  offFtmTotal : Int
  offFtaTotal : Int
  def2ptmAllowedTotal : Int
  def2ptaAllowedTotal : Int
  def3ptmAllowedTotal : Int
  def3ptaAllowedTotal : Int
  defFtmAllowedTotal : Int
  defFtaAllowedTotal : Int
deriving DecidableEq, Repr

/-- calculatePerGameAverages from src/lib/calculations.ts: null when
gamesPlayed = 0, otherwise every total divided by gamesPlayed. -/
def calculatePerGameAverages (totals : SeasonTotals) : Option TeamStats :=
  if totals.gamesPlayed = 0 then none
  else
    let g : ℚ := totals.gamesPlayed
    some
      { off2ptm := totals.off2ptmTotal / g
        off2pta := totals.off2ptaTotal / g
        off3ptm := totals.off3ptmTotal / g
        off3pta := totals.off3ptaTotal / g
        offFtm := totals.offFtmTotal / g
        offFta := totals.offFtaTotal / g
        def2ptmAllowed := totals.def2ptmAllowedTotal / g
        def2ptaAllowed := totals.def2ptaAllowedTotal / g
        def3ptmAllowed := totals.def3ptmAllowedTotal / g
        def3ptaAllowed := totals.def3ptaAllowedTotal / g
        defFtmAllowed := totals.defFtmAllowedTotal / g
        defFtaAllowed := totals.defFtaAllowedTotal / g }

/-! ## Data model (Prisma schema rows) -/

/-- League enum: the two parallel competitions. -/
inductive League where
  | MENS
  | WOMENS
deriving DecidableEq, Repr

/-- Game status enum of the Prisma schema. -/
inductive GameStatus where
  | SCHEDULED
  | IN_PROGRESS
  | FINAL
  | POSTPONED
  | CANCELLED
deriving DecidableEq, Repr

/-- Team row; identity key is (league, season, providerTeamId), `id` is the
generated primary key. -/
structure Team where
  id : Nat
  league : League
  season : String
  providerTeamId : String
  name : String
deriving DecidableEq, Repr

/-- Game row; identity key (league, season, providerGameId); timestamps as `Nat`. -/
structure Game where
  id : Nat
  league : League
  season : String
  providerGameId : String
  dateTime : Nat
  homeTeamId : Nat
  awayTeamId : Nat
  neutralSite : Bool
  status : GameStatus
  homeScore : Option Int
  awayScore : Option Int
  statsProcessed : Bool
  lastSyncedAt : Nat
deriving DecidableEq, Repr

/-- TeamGameStats row; identity key (gameId, teamId). -/
structure TeamGameStats where
  gameId : Nat
  teamId : Nat
  opponentId : Nat
  league : League
  season : String
  off2ptm : Int
  off2pta : Int
  off3ptm : Int
  off3pta : Int
  offFtm : Int
  offFta : Int
  def2ptmAllowed : Int
  def2ptaAllowed : Int
  def3ptmAllowed : Int
  def3ptaAllowed : Int
  defFtmAllowed : Int
  defFtaAllowed : Int
deriving DecidableEq, Repr

/-- TeamSeasonRollup row; unique by teamId. -/
structure TeamSeasonRollup where
  teamId : Nat
  league : League
  season : String
  gamesPlayed : Nat
  off2ptmTotal : Int
  off2ptaTotal : Int
  off3ptmTotal : Int
  off3ptaTotal : Int
  offFtmTotal : Int
  offFtaTotal : Int
  def2ptmAllowedTotal : Int
  def2ptaAllowedTotal : Int
  def3ptmAllowedTotal : Int
  def3ptaAllowedTotal : Int
  defFtmAllowedTotal : Int
  defFtaAllowedTotal : Int
deriving DecidableEq, Repr

/-- NationalAverages row; identity key (league, season); the thirteen
per-game average columns are grouped in a `NationalAveragesData`. -/
structure NationalAveragesRow where
  league : League
  season : String
  data : NationalAveragesData
deriving DecidableEq, Repr

/-- The persistent store: one list of rows per table, plus a fresh-id
counter standing in for generated primary keys. -/
structure DB where
  teams : List Team
  games : List Game
  stats : List TeamGameStats
  rollups : List TeamSeasonRollup
  nationals : List NationalAveragesRow
  nextId : Nat
deriving DecidableEq, Repr

/-! ## Normalized upstream events (ESPNEventData of src/lib/espn.ts) -/

/-- One competitor of a scoreboard event. -/
structure EventTeam where
  id : String
  displayName : String
  score : Option Int
deriving DecidableEq, Repr

/-- Calendar date of an event, with the timestamp used for Game.dateTime. -/
structure EventDate where
  year : Nat
  month : Nat
  time : Nat
deriving DecidableEq, Repr

/-- Normalized scoreboard event record. -/
structure ESPNEventData where
  id : String
  date : EventDate
  home : EventTeam
  away : EventTeam
  neutralSite : Bool
  completed : Bool
  statusState : String
  statusName : String
deriving DecidableEq, Repr

/-! ## Season derivation (src/jobs/schedule-sync.ts and the legacy
schedule-sync.ts) -/

/-- Two-digit year slice, as in String(year).slice(2) on a four-digit year. -/
def twoDigitYear (n : Nat) : String :=
  if n % 100 < 10 then "0" ++ toString (n % 100) else toString (n % 100)

/-- Season label "YYYY-YY" beginning in `startYear`. -/
def mkSeason (startYear : Nat) : String :=
  toString startYear ++ "-" ++ twoDigitYear (startYear + 1)

/-- deriveSeasonFromDate from src/jobs/schedule-sync.ts: month ≥ 10 gives the
season starting this year, every other month gives the season that started
the previous year. -/
def deriveSeasonFromDate (year month : Nat) : String :=
  if month ≥ 10 then mkSeason year else mkSeason (year - 1)

/-- getCurrentSeason from src/jobs/schedule-sync.ts (cutoff month 10, months
5 to 9 default to the upcoming season). -/
def getCurrentSeason (year month : Nat) : String :=
  if month ≥ 10 then mkSeason year
  else if month ≤ 4 then mkSeason (year - 1)
  else mkSeason year

/-- getCurrentSeason from the legacy schedule-sync.ts (cutoff month 11,
months 5 to 10 default to the upcoming season). -/
def getCurrentSeasonLegacy (year month : Nat) : String :=
  if month ≥ 11 then mkSeason year
  else if month ≤ 4 then mkSeason (year - 1)
  else mkSeason year

/-! ## Status mapping and upserts (src/jobs/schedule-sync.ts) -/

/-- mapGameStatus from src/jobs/schedule-sync.ts; the JS includes check is
substring containment, expressed through splitOn. -/
def mapGameStatus (event : ESPNEventData) : GameStatus :=
  if event.completed then GameStatus.FINAL
  else if event.statusState = "post" then GameStatus.FINAL
  else if event.statusState = "in" then GameStatus.IN_PROGRESS
  else if event.statusState = "pre" then GameStatus.SCHEDULED
  else
    let statusName := event.statusName.toUpper
    if (statusName.splitOn ("POSTPONED")).length > 1 then GameStatus.POSTPONED
    else if (statusName.splitOn ("CANCEL")).length > 1 then GameStatus.CANCELLED
    else GameStatus.SCHEDULED

/-- Natural-key predicate of the Team table unique constraint. -/
def teamKeyMatches (league : League) (season providerTeamId : String) (t : Team) : Bool :=
  t.league == league && t.season == season && t.providerTeamId == providerTeamId

/-- Natural-key predicate of the Game table unique constraint. -/
def gameKeyMatches (league : League) (season providerGameId : String) (g : Game) : Bool :=
  g.league == league && g.season == season && g.providerGameId == providerGameId

/-- A fresh rollup row as created by the sync upsert (all counters zero). -/
def emptyRollup (teamId : Nat) (league : League) (season : String) : TeamSeasonRollup :=
  { teamId := teamId, league := league, season := season, gamesPlayed := 0
    off2ptmTotal := 0, off2ptaTotal := 0, off3ptmTotal := 0, off3ptaTotal := 0
    offFtmTotal := 0, offFtaTotal := 0, def2ptmAllowedTotal := 0, def2ptaAllowedTotal := 0
    def3ptmAllowedTotal := 0, def3ptaAllowedTotal := 0, defFtmAllowedTotal := 0
    defFtaAllowedTotal := 0 }

/-- The teamSeasonRollup.upsert inside upsertTeam: create an empty rollup if
absent, else refresh league and season. -/
def ensureRollup (teamId : Nat) (league : League) (season : String)
    (rollups : List TeamSeasonRollup) : List TeamSeasonRollup :=
  if rollups.any (fun r => r.teamId == teamId) then
    rollups.map (fun r =>
      if r.teamId == teamId then { r with league := league, season := season } else r)
  else rollups ++ [emptyRollup teamId league season]

/-- upsertTeam from src/jobs/schedule-sync.ts: find by natural key; update
only the name if present, else insert; then ensure the rollup row exists.
Returns (team id, inserted flag, store). -/
def upsertTeam (league : League) (season providerTeamId name : String) (db : DB) :
    Nat × Bool × DB :=
  match db.teams.find? (teamKeyMatches league season providerTeamId) with
  | some existing =>
      let teams := db.teams.map (fun t =>
        if teamKeyMatches league season providerTeamId t then { t with name := name } else t)
      let rollups := ensureRollup existing.id league season db.rollups
      (existing.id, false, { db with teams := teams, rollups := rollups })
  | none =>
      let newTeam : Team :=
        { id := db.nextId, league := league, season := season
          providerTeamId := providerTeamId, name := name }
      let rollups := ensureRollup newTeam.id league season db.rollups
      (newTeam.id, true,
        { db with teams := db.teams ++ [newTeam], rollups := rollups, nextId := db.nextId + 1 })

/-- The update branch of the game upsert: only the mutable fields. -/
def syncGameUpdate (league : League) (season : String) (event : ESPNEventData) (now : Nat)
    (g : Game) : Game :=
  if gameKeyMatches league season event.id g then
    { g with dateTime := event.date.time
             neutralSite := event.neutralSite
             status := mapGameStatus event
             homeScore := event.home.score
             awayScore := event.away.score
             lastSyncedAt := now }
  else g

/-- upsertGame from src/jobs/schedule-sync.ts: find by natural key; update
mutable fields if present, else insert a fresh row with statsProcessed
false. Returns (inserted flag, store). -/
def upsertGame (league : League) (season : String) (event : ESPNEventData)
    (homeTeamId awayTeamId : Nat) (now : Nat) (db : DB) : Bool × DB :=
  match db.games.find? (gameKeyMatches league season event.id) with
  | some _ =>
      (false, { db with games := db.games.map (syncGameUpdate league season event now) })
  | none =>
      let newGame : Game :=
        { id := db.nextId, league := league, season := season, providerGameId := event.id
          dateTime := event.date.time, homeTeamId := homeTeamId, awayTeamId := awayTeamId
          neutralSite := event.neutralSite, status := mapGameStatus event
          homeScore := event.home.score, awayScore := event.away.score
          statsProcessed := false, lastSyncedAt := now }
      (true, { db with games := db.games ++ [newGame], nextId := db.nextId + 1 })

/-- Per-league counters returned by the synchronizer. -/
structure LeagueSyncResult where
  teamsInserted : Nat
  teamsUpdated : Nat
  gamesInserted : Nat
  gamesUpdated : Nat
  errors : List String
deriving DecidableEq, Repr

/-- Season resolution of one event: the forced season if given, else derived
from the event date. -/
def eventSeason (forcedSeason : Option String) (event : ESPNEventData) : String :=
  forcedSeason.getD (deriveSeasonFromDate event.date.year event.date.month)

/-- Per-event body of the sync loop: upsert home team, away team, then the
game, accumulating the insert/update counters. -/
def syncEvent (league : League) (forcedSeason : Option String) (now : Nat)
    (acc : DB × LeagueSyncResult) (event : ESPNEventData) : DB × LeagueSyncResult :=
  let season := eventSeason forcedSeason event
  let home := upsertTeam league season event.home.id event.home.displayName acc.1
  let res1 := { acc.2 with
    teamsInserted := acc.2.teamsInserted + (if home.2.1 then 1 else 0)
    teamsUpdated := acc.2.teamsUpdated + (if home.2.1 then 0 else 1) }
  let away := upsertTeam league season event.away.id event.away.displayName home.2.2
  let res2 := { res1 with
    teamsInserted := res1.teamsInserted + (if away.2.1 then 1 else 0)
    teamsUpdated := res1.teamsUpdated + (if away.2.1 then 0 else 1) }
  let game := upsertGame league season event home.1 away.1 now away.2.2
  let res3 := { res2 with
    gamesInserted := res2.gamesInserted + (if game.1 then 1 else 0)
    gamesUpdated := res2.gamesUpdated + (if game.1 then 0 else 1) }
  (game.2, res3)

/-- Zero-initialized per-league counters. -/
def zeroLeagueSyncResult : LeagueSyncResult :=
  { teamsInserted := 0, teamsUpdated := 0, gamesInserted := 0, gamesUpdated := 0, errors := [] }

/-- One league of the date-range sync: fold the per-event body over every
fetched day of the range. -/
def syncLeagueDates (fetch : League → String → List ESPNEventData) (league : League)
    (dates : List String) (forcedSeason : Option String) (now : Nat) (db : DB) :
    DB × LeagueSyncResult :=
  dates.foldl (fun acc d => (fetch league d).foldl (syncEvent league forcedSeason now) acc)
    (db, zeroLeagueSyncResult)

/-- Combined result of syncing both leagues. -/
structure SyncSchedulesResult where
  mens : LeagueSyncResult
  womens : LeagueSyncResult
deriving DecidableEq, Repr

/-- syncDateRangeBothLeagues from src/jobs/schedule-sync.ts: the men league
first, then the women league over the same dates. -/
def syncDateRangeBothLeagues (fetch : League → String → List ESPNEventData)
    (dates : List String) (forcedSeason : Option String) (now : Nat) (db : DB) :
    DB × SyncSchedulesResult :=
  let mensOut := syncLeagueDates fetch League.MENS dates forcedSeason now db
  let womensOut := syncLeagueDates fetch League.WOMENS dates forcedSeason now mensOut.1
  (womensOut.1, { mens := mensOut.2, womens := womensOut.2 })

/-! ## Claims C4 and C10 -/

/-- Claim C4: calculateDifferentials computes, for each of the six
category-side pairs, diff = (teamMade + teamAttempted) − (nationalMade +
nationalAttempted); calculateTeamExpected applies weights 1.0 / 1.5 / 0.5 to
the average of the team offensive diff and the opponent defensive diff and
adds the sum to the national baseline (so all-plus-ten diffs over a baseline
of 75 give adjustments 10, 15, 5 and expected points 105, and all-zero diffs
give exactly the baseline); calculateGameTotal is symmetric and its
expectedTotal is the sum of the two expectedPoints. -/
theorem calculations_differentials_expected_gameTotal_spec
    (teamStats : TeamStats) (nationals : NationalAveragesData)
    (teamDiffs opponentDiffs : TeamDifferentials) (natPointsPerTeam : ℚ)
    (team1Stats team2Stats : TeamStats) (team1Name team2Name : String) :
    (calculateDifferentials teamStats nationals =
      { off2ptDiff := (teamStats.off2ptm + teamStats.off2pta) -
          (nationals.natOff2ptmPg + nationals.natOff2ptaPg)
        off3ptDiff := (teamStats.off3ptm + teamStats.off3pta) -
          (nationals.natOff3ptmPg + nationals.natOff3ptaPg)
        offFtDiff := (teamStats.offFtm + teamStats.offFta) -
          (nationals.natOffFtmPg + nationals.natOffFtaPg)
        def2ptDiff := (teamStats.def2ptmAllowed + teamStats.def2ptaAllowed) -
          (nationals.natDef2ptmAllowedPg + nationals.natDef2ptaAllowedPg)
        def3ptDiff := (teamStats.def3ptmAllowed + teamStats.def3ptaAllowed) -
          (nationals.natDef3ptmAllowedPg + nationals.natDef3ptaAllowedPg)
        defFtDiff := (teamStats.defFtmAllowed + teamStats.defFtaAllowed) -
          (nationals.natDefFtmAllowedPg + nationals.natDefFtaAllowedPg) }) ∧
    ((calculateTeamExpected teamDiffs opponentDiffs natPointsPerTeam).adjustments.twoPoint =
      1 * ((teamDiffs.off2ptDiff + opponentDiffs.def2ptDiff) / 2)) ∧
    ((calculateTeamExpected teamDiffs opponentDiffs natPointsPerTeam).adjustments.threePoint =
      (3 / 2 : ℚ) * ((teamDiffs.off3ptDiff + opponentDiffs.def3ptDiff) / 2)) ∧
    ((calculateTeamExpected teamDiffs opponentDiffs natPointsPerTeam).adjustments.freeThrow =
      (1 / 2 : ℚ) * ((teamDiffs.offFtDiff + opponentDiffs.defFtDiff) / 2)) ∧
    ((calculateTeamExpected teamDiffs opponentDiffs natPointsPerTeam).expectedPoints =
      natPointsPerTeam +
        ((calculateTeamExpected teamDiffs opponentDiffs natPointsPerTeam).adjustments.twoPoint +
         (calculateTeamExpected teamDiffs opponentDiffs natPointsPerTeam).adjustments.threePoint +
         (calculateTeamExpected teamDiffs opponentDiffs natPointsPerTeam).adjustments.freeThrow)) ∧
    (calculateTeamExpected ⟨10, 10, 10, 10, 10, 10⟩ ⟨10, 10, 10, 10, 10, 10⟩ 75 =
      ⟨⟨10, 15, 5⟩, 105⟩) ∧
    ((calculateTeamExpected ⟨0, 0, 0, 0, 0, 0⟩ ⟨0, 0, 0, 0, 0, 0⟩ natPointsPerTeam).expectedPoints =
      natPointsPerTeam) ∧
    ((calculateGameTotal team1Stats team1Name team2Stats team2Name nationals).team1.expectedPoints =
      (calculateTeamExpected (calculateDifferentials team1Stats nationals)
        (calculateDifferentials team2Stats nationals)
        nationals.natPointsPgPerTeam).expectedPoints) ∧
    ((calculateGameTotal team1Stats team1Name team2Stats team2Name nationals).team2.expectedPoints =
      (calculateTeamExpected (calculateDifferentials team2Stats nationals)
        (calculateDifferentials team1Stats nationals)
        nationals.natPointsPgPerTeam).expectedPoints) ∧
    ((calculateGameTotal team1Stats team1Name team2Stats team2Name nationals).expectedTotal =
      (calculateGameTotal team1Stats team1Name team2Stats team2Name nationals).team1.expectedPoints +
      (calculateGameTotal team1Stats team1Name team2Stats team2Name nationals).team2.expectedPoints) := by
  refine ⟨rfl, ?_, rfl, rfl, ?_, ?_, ?_, rfl, rfl, rfl⟩
  · simp [calculateTeamExpected]
  · simp [calculateTeamExpected]
  · norm_num [calculateTeamExpected]
  · simp [calculateTeamExpected]

/-- Claim C10: calculatePerGameAverages returns none exactly when
gamesPlayed = 0, and otherwise a record in which every field is the
corresponding season total divided by gamesPlayed. -/
theorem calculatePerGameAverages_spec (totals : SeasonTotals) :
    (calculatePerGameAverages totals = none ↔ totals.gamesPlayed = 0) ∧
    (totals.gamesPlayed ≠ 0 →
      calculatePerGameAverages totals = some
        { off2ptm := (totals.off2ptmTotal : ℚ) / (totals.gamesPlayed : ℚ)
          off2pta := (totals.off2ptaTotal : ℚ) / (totals.gamesPlayed : ℚ)
          off3ptm := (totals.off3ptmTotal : ℚ) / (totals.gamesPlayed : ℚ)
          off3pta := (totals.off3ptaTotal : ℚ) / (totals.gamesPlayed : ℚ)
          offFtm := (totals.offFtmTotal : ℚ) / (totals.gamesPlayed : ℚ)
          offFta := (totals.offFtaTotal : ℚ) / (totals.gamesPlayed : ℚ)
          def2ptmAllowed := (totals.def2ptmAllowedTotal : ℚ) / (totals.gamesPlayed : ℚ)
          def2ptaAllowed := (totals.def2ptaAllowedTotal : ℚ) / (totals.gamesPlayed : ℚ)
          def3ptmAllowed := (totals.def3ptmAllowedTotal : ℚ) / (totals.gamesPlayed : ℚ)
          def3ptaAllowed := (totals.def3ptaAllowedTotal : ℚ) / (totals.gamesPlayed : ℚ)
          defFtmAllowed := (totals.defFtmAllowedTotal : ℚ) / (totals.gamesPlayed : ℚ)
          defFtaAllowed := (totals.defFtaAllowedTotal : ℚ) / (totals.gamesPlayed : ℚ) }) := by
  constructor
  · constructor
    · intro h
      by_contra hne
      simp [calculatePerGameAverages, hne] at h
    · intro h
      simp [calculatePerGameAverages, h]
  · intro h
    simp [calculatePerGameAverages, h]

/-- Witness for C10: a concrete totals record with 2 games played takes the
division branch. -/
theorem calculatePerGameAverages_spec_witness :
    calculatePerGameAverages
        { gamesPlayed := 2, off2ptmTotal := 10, off2ptaTotal := 20, off3ptmTotal := 6
          off3ptaTotal := 16, offFtmTotal := 8, offFtaTotal := 12
          def2ptmAllowedTotal := 14, def2ptaAllowedTotal := 30, def3ptmAllowedTotal := 4
          def3ptaAllowedTotal := 18, defFtmAllowedTotal := 10, defFtaAllowedTotal := 11 } =
      some
        { off2ptm := 5, off2pta := 10, off3ptm := 3, off3pta := 8, offFtm := 4, offFta := 6
          def2ptmAllowed := 7, def2ptaAllowed := 15, def3ptmAllowed := 2, def3ptaAllowed := 9
          defFtmAllowed := 5, defFtaAllowed := 11 / 2 } := by
  rw [(calculatePerGameAverages_spec _).2 (by decide)]
  norm_num

/-! ## Claim C8: season derivation -/

/-- The season rule asserted by the claim, parameterized by the cutoff
month: at or past the cutoff the season starts this year, January to April
belong to the season started the previous year, and any other month
defaults to the upcoming season. -/
def seasonClaimRule (cutoff : Nat) (f : Nat → Nat → String) : Prop :=
  ∀ year month : Nat, 1 ≤ month → month ≤ 12 →
    (cutoff ≤ month → f year month = mkSeason year) ∧
    (month ≤ 4 → f year month = mkSeason (year - 1)) ∧
    (4 < month → month < cutoff → f year month = mkSeason year)

/-- Counterexample to C8: in June 2025 deriveSeasonFromDate (the ingestion
path) yields the season 2024-25, while the claimed off-season default (for
either cutoff 10 or 11) demands the upcoming season 2025-26, which is what
getCurrentSeason yields on the same date.  deriveSeasonFromDate therefore
violates the claimed rule for both admissible cutoffs. -/
theorem seasonDerivation_counterexample :
    deriveSeasonFromDate 2025 6 = ("2024-25") ∧
    getCurrentSeason 2025 6 = ("2025-26") ∧
    ¬ seasonClaimRule 10 deriveSeasonFromDate ∧
    ¬ seasonClaimRule 11 deriveSeasonFromDate := by
  refine ⟨by decide, by decide, ?_, ?_⟩
  · intro h
    have h6 := (h 2025 6 (by decide) (by decide)).2.2 (by decide) (by decide)
    revert h6
    decide
  · intro h
    have h6 := (h 2025 6 (by decide) (by decide)).2.2 (by decide) (by decide)
    revert h6
    decide

/-- Claim C8 (amended): the two getCurrentSeason variants follow the claimed
shape with cutoffs 10 (jobs file) and 11 (legacy file) respectively,
including the off-season default to the upcoming season; but the ingestion
derivation deriveSeasonFromDate uses cutoff 10 with NO off-season default:
every month up to September maps to the season started the previous year,
so the cutoff behaviour is not consistent between ingestion and
derivation. -/
theorem season_functions_spec (year month : Nat) :
    (10 ≤ month → deriveSeasonFromDate year month = mkSeason year) ∧
    (month < 10 → deriveSeasonFromDate year month = mkSeason (year - 1)) ∧
    (10 ≤ month → getCurrentSeason year month = mkSeason year) ∧
    (month ≤ 4 → getCurrentSeason year month = mkSeason (year - 1)) ∧
    (4 < month → month < 10 → getCurrentSeason year month = mkSeason year) ∧
    (11 ≤ month → getCurrentSeasonLegacy year month = mkSeason year) ∧
    (month ≤ 4 → getCurrentSeasonLegacy year month = mkSeason (year - 1)) ∧
    (4 < month → month < 11 → getCurrentSeasonLegacy year month = mkSeason year) := by
  unfold deriveSeasonFromDate getCurrentSeason getCurrentSeasonLegacy
  refine ⟨fun h => ?_, fun h => ?_, fun h => ?_, fun h => ?_, fun h1 h2 => ?_,
    fun h => ?_, fun h => ?_, fun h1 h2 => ?_⟩
  · rw [if_pos h]
  · rw [if_neg (by omega)]
  · rw [if_pos h]
  · rw [if_neg (by omega), if_pos h]
  · rw [if_neg (by omega), if_neg (by omega)]
  · rw [if_pos h]
  · rw [if_neg (by omega), if_pos h]
  · rw [if_neg (by omega), if_neg (by omega)]

/-- Witness for the amended C8 at concrete dates covering every branch. -/
theorem season_functions_spec_witness :
    deriveSeasonFromDate 2025 12 = mkSeason 2025 ∧
    deriveSeasonFromDate 2025 6 = mkSeason (2025 - 1) ∧
    getCurrentSeason 2025 11 = mkSeason 2025 ∧
    getCurrentSeason 2025 2 = mkSeason (2025 - 1) ∧
    getCurrentSeason 2025 6 = mkSeason 2025 ∧
    getCurrentSeasonLegacy 2025 11 = mkSeason 2025 ∧
    getCurrentSeasonLegacy 2025 3 = mkSeason (2025 - 1) ∧
    getCurrentSeasonLegacy 2025 10 = mkSeason 2025 :=
  ⟨(season_functions_spec 2025 12).1 (by decide),
   (season_functions_spec 2025 6).2.1 (by decide),
   (season_functions_spec 2025 11).2.2.1 (by decide),
   (season_functions_spec 2025 2).2.2.2.1 (by decide),
   (season_functions_spec 2025 6).2.2.2.2.1 (by decide) (by decide),
   (season_functions_spec 2025 11).2.2.2.2.2.1 (by decide),
   (season_functions_spec 2025 3).2.2.2.2.2.2.1 (by decide),
   (season_functions_spec 2025 10).2.2.2.2.2.2.2 (by decide) (by decide)⟩

/-! ## Claim C6: the game-upsert update path is a frame over identity fields -/

/-- Claim C6: when the game row already exists, upsertGame reports no insert
and maps the game table through syncGameUpdate, which never changes the
identity fields (league, season, providerGameId), the team references, the
generated id, or the statsProcessed flag — so a FINAL game keeps
statsProcessed — while setting the mutable fields (schedule timestamp,
neutral-site flag, status, scores, last-synced timestamp) of the matching
row from the event; the other tables are untouched. -/
theorem upsertGame_update_frame (league : League) (season : String) (event : ESPNEventData)
    (homeTeamId awayTeamId now : Nat) (db : DB)
    (hexist : db.games.any (gameKeyMatches league season event.id) = true) :
    (upsertGame league season event homeTeamId awayTeamId now db).1 = false ∧
    (upsertGame league season event homeTeamId awayTeamId now db).2.games =
      db.games.map (syncGameUpdate league season event now) ∧
    (∀ g : Game,
      (syncGameUpdate league season event now g).league = g.league ∧
      (syncGameUpdate league season event now g).season = g.season ∧
      (syncGameUpdate league season event now g).providerGameId = g.providerGameId ∧
      (syncGameUpdate league season event now g).id = g.id ∧
      (syncGameUpdate league season event now g).homeTeamId = g.homeTeamId ∧
      (syncGameUpdate league season event now g).awayTeamId = g.awayTeamId ∧
      (syncGameUpdate league season event now g).statsProcessed = g.statsProcessed) ∧
    (∀ g : Game, gameKeyMatches league season event.id g = true →
      (syncGameUpdate league season event now g).dateTime = event.date.time ∧
      (syncGameUpdate league season event now g).neutralSite = event.neutralSite ∧
      (syncGameUpdate league season event now g).status = mapGameStatus event ∧
      (syncGameUpdate league season event now g).homeScore = event.home.score ∧
      (syncGameUpdate league season event now g).awayScore = event.away.score ∧
      (syncGameUpdate league season event now g).lastSyncedAt = now) ∧
    (upsertGame league season event homeTeamId awayTeamId now db).2.teams = db.teams ∧
    (upsertGame league season event homeTeamId awayTeamId now db).2.stats = db.stats ∧
    (upsertGame league season event homeTeamId awayTeamId now db).2.rollups = db.rollups := by
  have hfind : (db.games.find? (gameKeyMatches league season event.id)).isSome = true := by
    rw [List.find?_isSome]
    exact List.any_eq_true.mp hexist
  obtain ⟨g0, hg0⟩ := Option.isSome_iff_exists.mp hfind
  refine ⟨?_, ?_, ?_, ?_, ?_, ?_, ?_⟩
  · simp [upsertGame, hg0]
  · simp [upsertGame, hg0]
  · intro g
    unfold syncGameUpdate
    by_cases hc : gameKeyMatches league season event.id g = true <;> simp [hc]
  · intro g hc
    unfold syncGameUpdate
    simp [hc]
  · simp [upsertGame, hg0]
  · simp [upsertGame, hg0]
  · simp [upsertGame, hg0]

/-- Concrete event used by the C6 witness. -/
def exEvent : ESPNEventData :=
  { id := "401", date := { year := 2025, month := 11, time := 500 }
    home := { id := "H1", displayName := "Home U", score := some 70 }
    away := { id := "A1", displayName := "Away U", score := some 60 }
    neutralSite := false, completed := true, statusState := "post", statusName := "Final" }

/-- Concrete already-processed FINAL game row matching exEvent. -/
def exGameRow : Game :=
  { id := 7, league := League.MENS, season := "2025-26", providerGameId := "401"
    dateTime := 400, homeTeamId := 1, awayTeamId := 2, neutralSite := false
    status := GameStatus.FINAL, homeScore := some 68, awayScore := some 59
    statsProcessed := true, lastSyncedAt := 10 }

/-- Concrete store holding only exGameRow. -/
def exDB : DB :=
  { teams := [], games := [exGameRow], stats := [], rollups := [], nationals := []
    nextId := 100 }

/-- Witness for C6: re-syncing the already-FINAL processed exGameRow takes
the update path and maps the table through syncGameUpdate. -/
theorem upsertGame_update_frame_witness :
    (upsertGame League.MENS ("2025-26") exEvent 1 2 99 exDB).1 = false ∧
    (upsertGame League.MENS ("2025-26") exEvent 1 2 99 exDB).2.games =
      exDB.games.map (syncGameUpdate League.MENS ("2025-26") exEvent 99) := by
  have h := upsertGame_update_frame League.MENS ("2025-26") exEvent 1 2 99 exDB (by decide)
  exact ⟨h.1, h.2.1⟩

/-! ## Claim C5: synchronizer idempotence -/


def teamKeyPresent (teams : List Team) (league : League) (season providerTeamId : String) : Prop :=
  ∃ t ∈ teams, teamKeyMatches league season providerTeamId t = true

def gameKeyPresent (games : List Game) (league : League) (season providerGameId : String) : Prop :=
  ∃ g ∈ games, gameKeyMatches league season providerGameId g = true

theorem teamKeyMatches_rename (league league' : League)
    (season providerTeamId season' providerTeamId' name : String) (t : Team) :
    teamKeyMatches league season providerTeamId
      (if teamKeyMatches league' season' providerTeamId' t then { t with name := name } else t) =
      teamKeyMatches league season providerTeamId t := by
  by_cases h : teamKeyMatches league' season' providerTeamId' t = true
  · rw [if_pos h]
    simp [teamKeyMatches]
  · rw [if_neg h]

theorem gameKeyMatches_syncGameUpdate (league league' : League)
    (season providerGameId season' : String) (event : ESPNEventData) (now : Nat) (g : Game) :
    gameKeyMatches league season providerGameId (syncGameUpdate league' season' event now g) =
      gameKeyMatches league season providerGameId g := by
  unfold syncGameUpdate
  by_cases h : gameKeyMatches league' season' event.id g = true
  · rw [if_pos h]
    simp [gameKeyMatches]
  · rw [if_neg h]

theorem upsertTeam_games (league : League) (season providerTeamId name : String) (db : DB) :
    (upsertTeam league season providerTeamId name db).2.2.games = db.games := by
  unfold upsertTeam
  cases hfind : db.teams.find? (teamKeyMatches league season providerTeamId) <;> simp

theorem upsertGame_teams (league : League) (season : String) (event : ESPNEventData)
    (homeTeamId awayTeamId now : Nat) (db : DB) :
    (upsertGame league season event homeTeamId awayTeamId now db).2.teams = db.teams := by
  unfold upsertGame
  cases hfind : db.games.find? (gameKeyMatches league season event.id) <;> simp

theorem upsertTeam_preserves_teamKey {league₀ : League} {season₀ providerTeamId₀ : String}
    (league : League) (season providerTeamId name : String) (db : DB)
    (h : teamKeyPresent db.teams league₀ season₀ providerTeamId₀) :
    teamKeyPresent (upsertTeam league season providerTeamId name db).2.2.teams
      league₀ season₀ providerTeamId₀ := by
  obtain ⟨t, ht, hm⟩ := h
  unfold upsertTeam
  cases hfind : db.teams.find? (teamKeyMatches league season providerTeamId) with
  | none => exact ⟨t, by simp [ht], hm⟩
  | some ex =>
      refine ⟨_, List.mem_map_of_mem _ ht, ?_⟩
      rw [teamKeyMatches_rename]
      exact hm

theorem upsertTeam_establishes (league : League) (season providerTeamId name : String) (db : DB) :
    teamKeyPresent (upsertTeam league season providerTeamId name db).2.2.teams
      league season providerTeamId := by
  unfold upsertTeam
  cases hfind : db.teams.find? (teamKeyMatches league season providerTeamId) with
  | none =>
      exact ⟨{ id := db.nextId, league := league, season := season
               providerTeamId := providerTeamId, name := name }, by simp, by simp [teamKeyMatches]⟩
  | some ex =>
      have hmem := List.mem_of_find?_eq_some hfind
      have hmatch := List.find?_some hfind
      refine ⟨_, List.mem_map_of_mem _ hmem, ?_⟩
      rw [teamKeyMatches_rename]
      exact hmatch

theorem upsertTeam_found (league : League) (season providerTeamId name : String) (db : DB)
    (h : teamKeyPresent db.teams league season providerTeamId) :
    (upsertTeam league season providerTeamId name db).2.1 = false := by
  obtain ⟨t, ht, hm⟩ := h
  have hsome : (db.teams.find? (teamKeyMatches league season providerTeamId)).isSome = true :=
    List.find?_isSome.mpr ⟨t, ht, hm⟩
  obtain ⟨ex, hfind⟩ := Option.isSome_iff_exists.mp hsome
  unfold upsertTeam
  rw [hfind]

theorem upsertGame_preserves_gameKey {league₀ : League} {season₀ providerGameId₀ : String}
    (league : League) (season : String) (event : ESPNEventData)
    (homeTeamId awayTeamId now : Nat) (db : DB)
    (h : gameKeyPresent db.games league₀ season₀ providerGameId₀) :
    gameKeyPresent (upsertGame league season event homeTeamId awayTeamId now db).2.games
      league₀ season₀ providerGameId₀ := by
  obtain ⟨g, hg, hm⟩ := h
  unfold upsertGame
  cases hfind : db.games.find? (gameKeyMatches league season event.id) with
  | none => exact ⟨g, by simp [hg], hm⟩
  | some g0 =>
      refine ⟨_, List.mem_map_of_mem _ hg, ?_⟩
      rw [gameKeyMatches_syncGameUpdate]
      exact hm

theorem upsertGame_establishes (league : League) (season : String) (event : ESPNEventData)
    (homeTeamId awayTeamId now : Nat) (db : DB) :
    gameKeyPresent (upsertGame league season event homeTeamId awayTeamId now db).2.games
      league season event.id := by
  unfold upsertGame
  cases hfind : db.games.find? (gameKeyMatches league season event.id) with
  | none =>
      exact ⟨{ id := db.nextId, league := league, season := season, providerGameId := event.id
               dateTime := event.date.time, homeTeamId := homeTeamId, awayTeamId := awayTeamId
               neutralSite := event.neutralSite, status := mapGameStatus event
               homeScore := event.home.score, awayScore := event.away.score
               statsProcessed := false, lastSyncedAt := now }, by simp, by simp [gameKeyMatches]⟩
  | some g0 =>
      have hmem := List.mem_of_find?_eq_some hfind
      have hmatch := List.find?_some hfind
      refine ⟨_, List.mem_map_of_mem _ hmem, ?_⟩
      rw [gameKeyMatches_syncGameUpdate]
      exact hmatch

theorem upsertGame_found (league : League) (season : String) (event : ESPNEventData)
    (homeTeamId awayTeamId now : Nat) (db : DB)
    (h : gameKeyPresent db.games league season event.id) :
    (upsertGame league season event homeTeamId awayTeamId now db).1 = false := by
  obtain ⟨g, hg, hm⟩ := h
  have hsome : (db.games.find? (gameKeyMatches league season event.id)).isSome = true :=
    List.find?_isSome.mpr ⟨g, hg, hm⟩
  obtain ⟨ex, hfind⟩ := Option.isSome_iff_exists.mp hsome
  unfold upsertGame
  rw [hfind]

theorem syncEvent_preserves_teamKey {league₀ : League} {season₀ providerTeamId₀ : String}
    (league : League) (fs : Option String) (now : Nat) (acc : DB × LeagueSyncResult)
    (event : ESPNEventData)
    (h : teamKeyPresent acc.1.teams league₀ season₀ providerTeamId₀) :
    teamKeyPresent (syncEvent league fs now acc event).1.teams league₀ season₀ providerTeamId₀ := by
  unfold syncEvent
  simp only [upsertGame_teams]
  exact upsertTeam_preserves_teamKey _ _ _ _ _ (upsertTeam_preserves_teamKey _ _ _ _ _ h)

theorem syncEvent_preserves_gameKey {league₀ : League} {season₀ providerGameId₀ : String}
    (league : League) (fs : Option String) (now : Nat) (acc : DB × LeagueSyncResult)
    (event : ESPNEventData)
    (h : gameKeyPresent acc.1.games league₀ season₀ providerGameId₀) :
    gameKeyPresent (syncEvent league fs now acc event).1.games league₀ season₀ providerGameId₀ := by
  unfold syncEvent
  simp only []
  apply upsertGame_preserves_gameKey
  simpa only [upsertTeam_games] using h

def eventKeysPresent (league : League) (fs : Option String) (db : DB)
    (event : ESPNEventData) : Prop :=
  teamKeyPresent db.teams league (eventSeason fs event) event.home.id ∧
  teamKeyPresent db.teams league (eventSeason fs event) event.away.id ∧
  gameKeyPresent db.games league (eventSeason fs event) event.id

theorem syncEvent_establishes (league : League) (fs : Option String) (now : Nat)
    (acc : DB × LeagueSyncResult) (event : ESPNEventData) :
    eventKeysPresent league fs (syncEvent league fs now acc event).1 event := by
  unfold eventKeysPresent syncEvent
  simp only [upsertGame_teams]
  refine ⟨?_, ?_, ?_⟩
  · exact upsertTeam_preserves_teamKey _ _ _ _ _ (upsertTeam_establishes _ _ _ _ _)
  · exact upsertTeam_establishes _ _ _ _ _
  · exact upsertGame_establishes _ _ _ _ _ _ _

theorem syncEvent_counts_of_present (league : League) (fs : Option String) (now : Nat)
    (acc : DB × LeagueSyncResult) (event : ESPNEventData)
    (h : eventKeysPresent league fs acc.1 event) :
    (syncEvent league fs now acc event).2.teamsInserted = acc.2.teamsInserted ∧
    (syncEvent league fs now acc event).2.gamesInserted = acc.2.gamesInserted := by
  obtain ⟨hh, ha, hg⟩ := h
  have hhf := upsertTeam_found league (eventSeason fs event) event.home.id
    event.home.displayName acc.1 hh
  have haf := upsertTeam_found league (eventSeason fs event) event.away.id
    event.away.displayName
    (upsertTeam league (eventSeason fs event) event.home.id event.home.displayName acc.1).2.2
    (upsertTeam_preserves_teamKey _ _ _ _ _ ha)
  have hgp : gameKeyPresent
      (upsertTeam league (eventSeason fs event) event.away.id event.away.displayName
        (upsertTeam league (eventSeason fs event) event.home.id event.home.displayName
          acc.1).2.2).2.2.games
      league (eventSeason fs event) event.id := by
    simpa only [upsertTeam_games] using hg
  have hgf := upsertGame_found league (eventSeason fs event) event
    (upsertTeam league (eventSeason fs event) event.home.id event.home.displayName acc.1).1
    (upsertTeam league (eventSeason fs event) event.away.id event.away.displayName
      (upsertTeam league (eventSeason fs event) event.home.id event.home.displayName acc.1).2.2).1
    now _ hgp
  unfold syncEvent
  simp only [hhf, haf, hgf]
  constructor <;> simp

theorem syncEvent_preserves_eventKeys (league₀ : League) (fs₀ : Option String)
    (league : League) (fs : Option String) (now : Nat)
    (acc : DB × LeagueSyncResult) (event e₀ : ESPNEventData)
    (h : eventKeysPresent league₀ fs₀ acc.1 e₀) :
    eventKeysPresent league₀ fs₀ (syncEvent league fs now acc event).1 e₀ :=
  ⟨syncEvent_preserves_teamKey _ _ _ _ _ h.1,
   syncEvent_preserves_teamKey _ _ _ _ _ h.2.1,
   syncEvent_preserves_gameKey _ _ _ _ _ h.2.2⟩

theorem foldl_syncEvent_preserves_eventKeys (league₀ : League) (fs₀ : Option String)
    (league : League) (fs : Option String) (now : Nat)
    (es : List ESPNEventData) (acc : DB × LeagueSyncResult) (e₀ : ESPNEventData)
    (h : eventKeysPresent league₀ fs₀ acc.1 e₀) :
    eventKeysPresent league₀ fs₀ ((es.foldl (syncEvent league fs now) acc)).1 e₀ := by
  induction es generalizing acc with
  | nil => exact h
  | cons e rest ih =>
      simp only [List.foldl_cons]
      exact ih _ (syncEvent_preserves_eventKeys _ _ _ _ _ _ _ _ h)

theorem foldl_syncEvent_establishes (league : League) (fs : Option String) (now : Nat)
    (es : List ESPNEventData) (acc : DB × LeagueSyncResult) :
    ∀ e ∈ es, eventKeysPresent league fs ((es.foldl (syncEvent league fs now) acc)).1 e := by
  induction es generalizing acc with
  | nil => intro e he; simp at he
  | cons e0 rest ih =>
      intro e he
      simp only [List.foldl_cons]
      rcases List.mem_cons.mp he with rfl | hrest
      · exact foldl_syncEvent_preserves_eventKeys _ _ _ _ _ rest _ _
          (syncEvent_establishes _ _ _ _ _)
      · exact ih _ e hrest

theorem foldl_syncEvent_counts (league : League) (fs : Option String) (now : Nat)
    (es : List ESPNEventData) (acc : DB × LeagueSyncResult)
    (h : ∀ e ∈ es, eventKeysPresent league fs acc.1 e) :
    ((es.foldl (syncEvent league fs now) acc)).2.teamsInserted = acc.2.teamsInserted ∧
    ((es.foldl (syncEvent league fs now) acc)).2.gamesInserted = acc.2.gamesInserted := by
  induction es generalizing acc with
  | nil => exact ⟨rfl, rfl⟩
  | cons e0 rest ih =>
      have h0 := h e0 (List.mem_cons_self _ _)
      have hcounts := syncEvent_counts_of_present league fs now acc e0 h0
      have hrest : ∀ e ∈ rest, eventKeysPresent league fs (syncEvent league fs now acc e0).1 e :=
        fun e he => syncEvent_preserves_eventKeys _ _ _ _ _ _ _ _ (h e (List.mem_cons_of_mem _ he))
      have hr := ih _ hrest
      simp only [List.foldl_cons]
      exact ⟨hr.1.trans hcounts.1, hr.2.trans hcounts.2⟩

theorem syncLeagueDates_eq (fetch : League → String → List ESPNEventData) (league : League)
    (dates : List String) (fs : Option String) (now : Nat) (db : DB) :
    syncLeagueDates fetch league dates fs now db =
      ((dates.map (fetch league)).flatten).foldl (syncEvent league fs now)
        (db, zeroLeagueSyncResult) := by
  unfold syncLeagueDates
  rw [List.foldl_flatten, List.foldl_map]

/-- Claim C5: running the date-range synchronizer a second time over the
identical date list against the same (unchanged) upstream inserts zero teams
and zero games for both leagues, from any starting store. -/
theorem syncRange_second_run_inserts_nothing (fetch : League → String → List ESPNEventData)
    (dates : List String) (forcedSeason : Option String) (now1 now2 : Nat) (db0 : DB) :
    (syncDateRangeBothLeagues fetch dates forcedSeason now2
        (syncDateRangeBothLeagues fetch dates forcedSeason now1 db0).1).2.mens.teamsInserted = 0 ∧
    (syncDateRangeBothLeagues fetch dates forcedSeason now2
        (syncDateRangeBothLeagues fetch dates forcedSeason now1 db0).1).2.mens.gamesInserted = 0 ∧
    (syncDateRangeBothLeagues fetch dates forcedSeason now2
        (syncDateRangeBothLeagues fetch dates forcedSeason now1 db0).1).2.womens.teamsInserted = 0 ∧
    (syncDateRangeBothLeagues fetch dates forcedSeason now2
        (syncDateRangeBothLeagues fetch dates forcedSeason now1 db0).1).2.womens.gamesInserted = 0 := by
  unfold syncDateRangeBothLeagues
  simp only [syncLeagueDates_eq]
  set esM := (dates.map (fetch League.MENS)).flatten with hesM
  set esW := (dates.map (fetch League.WOMENS)).flatten with hesW
  set acc1M := esM.foldl (syncEvent League.MENS forcedSeason now1) (db0, zeroLeagueSyncResult)
    with hacc1M
  set acc1W := esW.foldl (syncEvent League.WOMENS forcedSeason now1)
    (acc1M.1, zeroLeagueSyncResult) with hacc1W
  have hM1 : ∀ e ∈ esM, eventKeysPresent League.MENS forcedSeason acc1M.1 e := by
    rw [hacc1M]
    exact foldl_syncEvent_establishes _ _ _ _ _
  have hMW : ∀ e ∈ esM, eventKeysPresent League.MENS forcedSeason acc1W.1 e := by
    rw [hacc1W]
    exact fun e he => foldl_syncEvent_preserves_eventKeys _ _ _ _ _ _ _ _ (hM1 e he)
  have hW1 : ∀ e ∈ esW, eventKeysPresent League.WOMENS forcedSeason acc1W.1 e := by
    rw [hacc1W]
    exact foldl_syncEvent_establishes _ _ _ _ _
  set acc2M := esM.foldl (syncEvent League.MENS forcedSeason now2)
    (acc1W.1, zeroLeagueSyncResult) with hacc2M
  have hM2 := foldl_syncEvent_counts League.MENS forcedSeason now2 esM
    (acc1W.1, zeroLeagueSyncResult) (fun e he => hMW e he)
  have hW2pre : ∀ e ∈ esW, eventKeysPresent League.WOMENS forcedSeason acc2M.1 e := by
    rw [hacc2M]
    exact fun e he => foldl_syncEvent_preserves_eventKeys _ _ _ _ _ _ _ _ (hW1 e he)
  have hW2 := foldl_syncEvent_counts League.WOMENS forcedSeason now2 esW
    (acc2M.1, zeroLeagueSyncResult) hW2pre
  refine ⟨?_, ?_, ?_, ?_⟩
  · simpa [zeroLeagueSyncResult] using hM2.1
  · simpa [zeroLeagueSyncResult] using hM2.2
  · simpa [zeroLeagueSyncResult] using hW2.1
  · simpa [zeroLeagueSyncResult] using hW2.2

/-! ## Game processor (processCompletedGames) and rollup aggregator -/

/-- Shooting statistics block of one side of a parsed boxscore; points is
optional because the processor applies the JS nullish-coalescing operator
to it when storing scores. -/
structure BoxscoreStats where
  field_goals_made : Int
  field_goals_att : Int
  three_points_made : Int
  three_points_att : Int
  free_throws_made : Int
  free_throws_att : Int
  points : Option Int
deriving DecidableEq, Repr

/-- Parsed boxscore of one game; either statistics block may be absent. -/
structure Boxscore where
  home : Option BoxscoreStats
  away : Option BoxscoreStats
deriving DecidableEq, Repr

/-- The update branch of the teamGameStats upsert: refresh only the twelve
statistic columns, keeping key and identity columns. -/
def updateTGSRow (incoming old : TeamGameStats) : TeamGameStats :=
  { old with
    off2ptm := incoming.off2ptm, off2pta := incoming.off2pta
    off3ptm := incoming.off3ptm, off3pta := incoming.off3pta
    offFtm := incoming.offFtm, offFta := incoming.offFta
    def2ptmAllowed := incoming.def2ptmAllowed, def2ptaAllowed := incoming.def2ptaAllowed
    def3ptmAllowed := incoming.def3ptmAllowed, def3ptaAllowed := incoming.def3ptaAllowed
    defFtmAllowed := incoming.defFtmAllowed, defFtaAllowed := incoming.defFtaAllowed }

/-- The teamGameStats.upsert keyed by (gameId, teamId). -/
def upsertTeamGameStats (rows : List TeamGameStats) (row : TeamGameStats) :
    List TeamGameStats :=
  if rows.any (fun r => r.gameId == row.gameId && r.teamId == row.teamId) then
    rows.map (fun r =>
      if r.gameId == row.gameId && r.teamId == row.teamId then updateTGSRow row r else r)
  else rows ++ [row]

/-- The TeamGameStats rows of one team in one league and season (the
aggregate filter of updateTeamSeasonRollup). -/
def statsForTeam (stats : List TeamGameStats) (teamId : Nat) (league : League)
    (season : String) : List TeamGameStats :=
  stats.filter (fun r => r.teamId == teamId && r.league == league && r.season == season)

/-- Sum of one integer column over TeamGameStats rows; the empty sum is 0,
matching the null-coalesced Prisma _sum. -/
def sumBy (rows : List TeamGameStats) (f : TeamGameStats → Int) : Int :=
  (rows.map f).sum

/-- The fresh aggregate row computed by updateTeamSeasonRollup: gamesPlayed
is the row count of the aggregation and every total is a column sum. -/
def rollupAggregate (stats : List TeamGameStats) (teamId : Nat) (league : League)
    (season : String) : TeamSeasonRollup :=
  let rows := statsForTeam stats teamId league season
  { teamId := teamId, league := league, season := season, gamesPlayed := rows.length
    off2ptmTotal := sumBy rows (fun r => r.off2ptm)
    off2ptaTotal := sumBy rows (fun r => r.off2pta)
    off3ptmTotal := sumBy rows (fun r => r.off3ptm)
    off3ptaTotal := sumBy rows (fun r => r.off3pta)
    offFtmTotal := sumBy rows (fun r => r.offFtm)
    offFtaTotal := sumBy rows (fun r => r.offFta)
    def2ptmAllowedTotal := sumBy rows (fun r => r.def2ptmAllowed)
    def2ptaAllowedTotal := sumBy rows (fun r => r.def2ptaAllowed)
    def3ptmAllowedTotal := sumBy rows (fun r => r.def3ptmAllowed)
    def3ptaAllowedTotal := sumBy rows (fun r => r.def3ptaAllowed)
    defFtmAllowedTotal := sumBy rows (fun r => r.defFtmAllowed)
    defFtaAllowedTotal := sumBy rows (fun r => r.defFtaAllowed) }

/-- The update branch of the rollup upsert: overwrite gamesPlayed and the
twelve totals with the freshly aggregated values. -/
def rollupOverwrite (agg r : TeamSeasonRollup) : TeamSeasonRollup :=
  { r with gamesPlayed := agg.gamesPlayed
           off2ptmTotal := agg.off2ptmTotal
           off2ptaTotal := agg.off2ptaTotal
           off3ptmTotal := agg.off3ptmTotal
           off3ptaTotal := agg.off3ptaTotal
           offFtmTotal := agg.offFtmTotal
           offFtaTotal := agg.offFtaTotal
           def2ptmAllowedTotal := agg.def2ptmAllowedTotal
           def2ptaAllowedTotal := agg.def2ptaAllowedTotal
           def3ptmAllowedTotal := agg.def3ptmAllowedTotal
           def3ptaAllowedTotal := agg.def3ptaAllowedTotal
           defFtmAllowedTotal := agg.defFtmAllowedTotal
           defFtaAllowedTotal := agg.defFtaAllowedTotal }

/-- updateTeamSeasonRollup from the game processor: aggregate every
TeamGameStats row of the team from scratch, then upsert the rollup keyed by
teamId — overwriting, never incrementing. -/
def updateTeamSeasonRollup (teamId : Nat) (league : League) (season : String) (db : DB) : DB :=
  let agg := rollupAggregate db.stats teamId league season
  if db.rollups.any (fun r => r.teamId == teamId) then
    { db with rollups := db.rollups.map (fun r =>
        if r.teamId == teamId then rollupOverwrite agg r else r) }
  else { db with rollups := db.rollups ++ [agg] }

/-- Result counters of processCompletedGames. -/
structure ProcessCompletedGamesResult where
  gamesFound : Nat
  gamesProcessed : Nat
  gamesSkipped : Nat
  errors : List String
deriving DecidableEq, Repr

/-- Success branch of the per-game processor body: derive the two-point
splits, upsert both TeamGameStats rows, recompute both rollups, and mark the
game processed, storing the boxscore points over the snapshot scores via the
JS nullish-coalescing operator. -/
def processSuccess (acc : DB × ProcessCompletedGamesResult) (game : Game)
    (homeStats awayStats : BoxscoreStats) : DB × ProcessCompletedGamesResult :=
  let home2pt := derive2ptFromFg homeStats.field_goals_made homeStats.field_goals_att
    homeStats.three_points_made homeStats.three_points_att
  let away2pt := derive2ptFromFg awayStats.field_goals_made awayStats.field_goals_att
    awayStats.three_points_made awayStats.three_points_att
  let homeRow : TeamGameStats :=
    { gameId := game.id, teamId := game.homeTeamId, opponentId := game.awayTeamId
      league := game.league, season := game.season
      off2ptm := home2pt.twoPtm, off2pta := home2pt.twoPta
      off3ptm := homeStats.three_points_made, off3pta := homeStats.three_points_att
      offFtm := homeStats.free_throws_made, offFta := homeStats.free_throws_att
      def2ptmAllowed := away2pt.twoPtm, def2ptaAllowed := away2pt.twoPta
      def3ptmAllowed := awayStats.three_points_made
      def3ptaAllowed := awayStats.three_points_att
      defFtmAllowed := awayStats.free_throws_made
      defFtaAllowed := awayStats.free_throws_att }
  let awayRow : TeamGameStats :=
    { gameId := game.id, teamId := game.awayTeamId, opponentId := game.homeTeamId
      league := game.league, season := game.season
      off2ptm := away2pt.twoPtm, off2pta := away2pt.twoPta
      off3ptm := awayStats.three_points_made, off3pta := awayStats.three_points_att
      offFtm := awayStats.free_throws_made, offFta := awayStats.free_throws_att
      def2ptmAllowed := home2pt.twoPtm, def2ptaAllowed := home2pt.twoPta
      def3ptmAllowed := homeStats.three_points_made
      def3ptaAllowed := homeStats.three_points_att
      defFtmAllowed := homeStats.free_throws_made
      defFtaAllowed := homeStats.free_throws_att }
  let db1 := { acc.1 with stats := upsertTeamGameStats acc.1.stats homeRow }
  let db2 := { db1 with stats := upsertTeamGameStats db1.stats awayRow }
  let db3 := updateTeamSeasonRollup game.homeTeamId game.league game.season db2
  let db4 := updateTeamSeasonRollup game.awayTeamId game.league game.season db3
  let db5 := { db4 with games := db4.games.map (fun g2 =>
      if g2.id == game.id then
        { g2 with statsProcessed := true
                  homeScore := match homeStats.points with
                    | some p => some p
                    | none => game.homeScore
                  awayScore := match awayStats.points with
                    | some p => some p
                    | none => game.awayScore }
      else g2) }
  (db5, { acc.2 with gamesProcessed := acc.2.gamesProcessed + 1 })

/-- Per-game body of the processor loop.  The argument game is the snapshot
row selected at the start of the run, exactly as in the source loop: skip
(counting only) when the boxscore is absent or either statistics block is
missing, otherwise run the success branch. -/
def processOne (fetchBoxscore : League → String → Option Boxscore)
    (acc : DB × ProcessCompletedGamesResult) (game : Game) :
    DB × ProcessCompletedGamesResult :=
  match fetchBoxscore game.league game.providerGameId with
  | none => (acc.1, { acc.2 with gamesSkipped := acc.2.gamesSkipped + 1 })
  | some boxscore =>
    match boxscore.home, boxscore.away with
    | some homeStats, some awayStats => processSuccess acc game homeStats awayStats
    | _, _ => (acc.1, { acc.2 with gamesSkipped := acc.2.gamesSkipped + 1 })

/-- Ordering used by the processor selection: ascending scheduled time. -/
def gameDateLe (a b : Game) : Prop := a.dateTime ≤ b.dateTime

instance : DecidableRel gameDateLe := fun a b => Nat.decLe a.dateTime b.dateTime

instance : IsTotal Game gameDateLe := ⟨fun a b => Nat.le_total a.dateTime b.dateTime⟩

instance : IsTrans Game gameDateLe := ⟨fun _ _ _ h1 h2 => Nat.le_trans h1 h2⟩

/-- The findMany selection of processCompletedGames: status FINAL and not
yet processed, ordered by scheduled time ascending. -/
def selectUnprocessedFinalGames (db : DB) : List Game :=
  List.insertionSort gameDateLe
    (db.games.filter (fun g => g.status == GameStatus.FINAL && !g.statsProcessed))

/-- processCompletedGames: select the FINAL unprocessed games, then fold the
per-game body over them, counting found games up front. -/
def processCompletedGames (fetchBoxscore : League → String → Option Boxscore) (db : DB) :
    DB × ProcessCompletedGamesResult :=
  let unprocessedGames := selectUnprocessedFinalGames db
  unprocessedGames.foldl (processOne fetchBoxscore)
    (db, { gamesFound := unprocessedGames.length, gamesProcessed := 0, gamesSkipped := 0
           errors := [] })

/-- The TeamGameStats rows keyed by one (gameId, teamId) pair. -/
def statRowsFor (stats : List TeamGameStats) (gameId teamId : Nat) : List TeamGameStats :=
  stats.filter (fun r => r.gameId == gameId && r.teamId == teamId)

/-- The Game rows with the given primary key. -/
def gameRowsFor (games : List Game) (id : Nat) : List Game :=
  games.filter (fun g => g.id == id)

/-! ## Claims C1, C2, C7, C9: game-processor semantics -/


theorem filter_map_invariant {α : Type} (p : α → Bool) (f : α → α) (l : List α)
    (hp : ∀ a, p (f a) = p a) (hf : ∀ a, p a = true → f a = a) :
    (l.map f).filter p = l.filter p := by
  induction l with
  | nil => rfl
  | cons a l ih =>
      simp only [List.map_cons, List.filter_cons, hp a]
      by_cases hpa : p a = true
      · rw [if_pos hpa, if_pos hpa, hf a hpa, ih]
      · rw [if_neg hpa, if_neg hpa, ih]

theorem updateTeamSeasonRollup_stats (teamId : Nat) (league : League) (season : String)
    (db : DB) : (updateTeamSeasonRollup teamId league season db).stats = db.stats := by
  unfold updateTeamSeasonRollup
  split <;> rfl

theorem updateTeamSeasonRollup_games (teamId : Nat) (league : League) (season : String)
    (db : DB) : (updateTeamSeasonRollup teamId league season db).games = db.games := by
  unfold updateTeamSeasonRollup
  split <;> rfl

theorem upsertTeamGameStats_statRows_frame (rows : List TeamGameStats) (row : TeamGameStats)
    (n t : Nat) (h : row.gameId ≠ n) :
    statRowsFor (upsertTeamGameStats rows row) n t = statRowsFor rows n t := by
  unfold upsertTeamGameStats statRowsFor
  by_cases hany : rows.any (fun r => r.gameId == row.gameId && r.teamId == row.teamId) = true
  · rw [if_pos hany]
    apply filter_map_invariant
    · intro a
      by_cases hk : (a.gameId == row.gameId && a.teamId == row.teamId) = true
      · rw [if_pos hk]
        simp [updateTGSRow]
      · rw [if_neg hk]
    · intro a hpa
      by_cases hk : (a.gameId == row.gameId && a.teamId == row.teamId) = true
      · exfalso
        simp only [Bool.and_eq_true, beq_iff_eq] at hpa hk
        exact h (hk.1 ▸ hpa.1)
      · rw [if_neg hk]
  · rw [if_neg hany, List.filter_append]
    have hrow : List.filter (fun r => r.gameId == n && r.teamId == t) [row] = [] := by
      simp [h]
    rw [hrow, List.append_nil]

/-- The home-side TeamGameStats row written by the success branch. -/
def homeRowOf (game : Game) (homeStats awayStats : BoxscoreStats) : TeamGameStats :=
  { gameId := game.id, teamId := game.homeTeamId, opponentId := game.awayTeamId
    league := game.league, season := game.season
    off2ptm := (derive2ptFromFg homeStats.field_goals_made homeStats.field_goals_att
      homeStats.three_points_made homeStats.three_points_att).twoPtm
    off2pta := (derive2ptFromFg homeStats.field_goals_made homeStats.field_goals_att
      homeStats.three_points_made homeStats.three_points_att).twoPta
    off3ptm := homeStats.three_points_made, off3pta := homeStats.three_points_att
    offFtm := homeStats.free_throws_made, offFta := homeStats.free_throws_att
    def2ptmAllowed := (derive2ptFromFg awayStats.field_goals_made awayStats.field_goals_att
      awayStats.three_points_made awayStats.three_points_att).twoPtm
    def2ptaAllowed := (derive2ptFromFg awayStats.field_goals_made awayStats.field_goals_att
      awayStats.three_points_made awayStats.three_points_att).twoPta
    def3ptmAllowed := awayStats.three_points_made
    def3ptaAllowed := awayStats.three_points_att
    defFtmAllowed := awayStats.free_throws_made
    defFtaAllowed := awayStats.free_throws_att }

/-- The away-side TeamGameStats row written by the success branch. -/
def awayRowOf (game : Game) (homeStats awayStats : BoxscoreStats) : TeamGameStats :=
  { gameId := game.id, teamId := game.awayTeamId, opponentId := game.homeTeamId
    league := game.league, season := game.season
    off2ptm := (derive2ptFromFg awayStats.field_goals_made awayStats.field_goals_att
      awayStats.three_points_made awayStats.three_points_att).twoPtm
    off2pta := (derive2ptFromFg awayStats.field_goals_made awayStats.field_goals_att
      awayStats.three_points_made awayStats.three_points_att).twoPta
    off3ptm := awayStats.three_points_made, off3pta := awayStats.three_points_att
    offFtm := awayStats.free_throws_made, offFta := awayStats.free_throws_att
    def2ptmAllowed := (derive2ptFromFg homeStats.field_goals_made homeStats.field_goals_att
      homeStats.three_points_made homeStats.three_points_att).twoPtm
    def2ptaAllowed := (derive2ptFromFg homeStats.field_goals_made homeStats.field_goals_att
      homeStats.three_points_made homeStats.three_points_att).twoPta
    def3ptmAllowed := homeStats.three_points_made
    def3ptaAllowed := homeStats.three_points_att
    defFtmAllowed := homeStats.free_throws_made
    defFtaAllowed := homeStats.free_throws_att }

/-- The per-row mark-processed update applied to the game table by the
success branch. -/
def markProcessedUpdate (game : Game) (homeStats awayStats : BoxscoreStats) (g2 : Game) :
    Game :=
  if g2.id == game.id then
    { g2 with statsProcessed := true
              homeScore := match homeStats.points with
                | some p => some p
                | none => game.homeScore
              awayScore := match awayStats.points with
                | some p => some p
                | none => game.awayScore }
  else g2

theorem processSuccess_stats (acc : DB × ProcessCompletedGamesResult) (game : Game)
    (homeStats awayStats : BoxscoreStats) :
    (processSuccess acc game homeStats awayStats).1.stats =
      upsertTeamGameStats (upsertTeamGameStats acc.1.stats (homeRowOf game homeStats awayStats))
        (awayRowOf game homeStats awayStats) := by
  unfold processSuccess homeRowOf awayRowOf
  simp only [updateTeamSeasonRollup_stats]

theorem processSuccess_games (acc : DB × ProcessCompletedGamesResult) (game : Game)
    (homeStats awayStats : BoxscoreStats) :
    (processSuccess acc game homeStats awayStats).1.games =
      acc.1.games.map (markProcessedUpdate game homeStats awayStats) := by
  unfold processSuccess markProcessedUpdate
  simp only [updateTeamSeasonRollup_games]

theorem processSuccess_res (acc : DB × ProcessCompletedGamesResult) (game : Game)
    (homeStats awayStats : BoxscoreStats) :
    (processSuccess acc game homeStats awayStats).2 =
      { acc.2 with gamesProcessed := acc.2.gamesProcessed + 1 } := rfl

theorem processOne_none_eq (fetchBoxscore : League → String → Option Boxscore)
    (acc : DB × ProcessCompletedGamesResult) (game : Game)
    (h : fetchBoxscore game.league game.providerGameId = none) :
    processOne fetchBoxscore acc game =
      (acc.1, { acc.2 with gamesSkipped := acc.2.gamesSkipped + 1 }) := by
  unfold processOne
  rw [h]

theorem processOne_missing_eq (fetchBoxscore : League → String → Option Boxscore)
    (acc : DB × ProcessCompletedGamesResult) (game : Game) (box : Boxscore)
    (hfetch : fetchBoxscore game.league game.providerGameId = some box)
    (hmiss : box.home = none ∨ box.away = none) :
    processOne fetchBoxscore acc game =
      (acc.1, { acc.2 with gamesSkipped := acc.2.gamesSkipped + 1 }) := by
  unfold processOne
  rw [hfetch]
  obtain ⟨bh, ba⟩ := box
  cases bh with
  | none => rfl
  | some hs =>
      cases ba with
      | none => rfl
      | some ats =>
          exfalso
          rcases hmiss with hmiss | hmiss <;> exact Option.noConfusion hmiss

theorem processOne_success_eq (fetchBoxscore : League → String → Option Boxscore)
    (acc : DB × ProcessCompletedGamesResult) (game : Game) (box : Boxscore)
    (hs ats : BoxscoreStats)
    (hfetch : fetchBoxscore game.league game.providerGameId = some box)
    (hhome : box.home = some hs) (haway : box.away = some ats) :
    processOne fetchBoxscore acc game = processSuccess acc game hs ats := by
  unfold processOne
  rw [hfetch]
  obtain ⟨bh, ba⟩ := box
  cases bh with
  | none => exact Option.noConfusion hhome
  | some x =>
      obtain rfl : x = hs := Option.some.inj hhome
      cases ba with
      | none => exact Option.noConfusion haway
      | some y =>
          obtain rfl : y = ats := Option.some.inj haway
          rfl

theorem processSuccess_statRows_frame (acc : DB × ProcessCompletedGamesResult) (game : Game)
    (homeStats awayStats : BoxscoreStats) (n t : Nat) (h : game.id ≠ n) :
    statRowsFor (processSuccess acc game homeStats awayStats).1.stats n t =
      statRowsFor acc.1.stats n t := by
  rw [processSuccess_stats,
    upsertTeamGameStats_statRows_frame _ _ _ _ h,
    upsertTeamGameStats_statRows_frame _ _ _ _ h]

theorem processSuccess_gameRows_frame (acc : DB × ProcessCompletedGamesResult) (game : Game)
    (homeStats awayStats : BoxscoreStats) (n : Nat) (h : game.id ≠ n) :
    gameRowsFor (processSuccess acc game homeStats awayStats).1.games n =
      gameRowsFor acc.1.games n := by
  rw [processSuccess_games]
  unfold gameRowsFor
  apply filter_map_invariant
  · intro a
    unfold markProcessedUpdate
    by_cases hk : (a.id == game.id) = true
    · rw [if_pos hk]
    · rw [if_neg hk]
  · intro a hpa
    unfold markProcessedUpdate
    have hk : ¬((a.id == game.id) = true) := by
      simp only [beq_iff_eq] at hpa ⊢
      rw [hpa]
      exact fun hgn => h hgn.symm
    rw [if_neg hk]

theorem processOne_statRows_frame (fetchBoxscore : League → String → Option Boxscore)
    (acc : DB × ProcessCompletedGamesResult) (x : Game) (n t : Nat) (h : x.id ≠ n) :
    statRowsFor (processOne fetchBoxscore acc x).1.stats n t =
      statRowsFor acc.1.stats n t := by
  cases hfetch : fetchBoxscore x.league x.providerGameId with
  | none => rw [processOne_none_eq _ _ _ hfetch]
  | some box =>
      obtain ⟨bh, ba⟩ := box
      cases bh with
      | none => rw [processOne_missing_eq _ _ _ _ hfetch (Or.inl rfl)]
      | some hs =>
          cases ba with
          | none => rw [processOne_missing_eq _ _ _ _ hfetch (Or.inr rfl)]
          | some ats =>
              rw [processOne_success_eq _ _ _ _ _ _ hfetch rfl rfl]
              exact processSuccess_statRows_frame _ _ _ _ _ _ h

theorem processOne_gameRows_frame (fetchBoxscore : League → String → Option Boxscore)
    (acc : DB × ProcessCompletedGamesResult) (x : Game) (n : Nat) (h : x.id ≠ n) :
    gameRowsFor (processOne fetchBoxscore acc x).1.games n = gameRowsFor acc.1.games n := by
  cases hfetch : fetchBoxscore x.league x.providerGameId with
  | none => rw [processOne_none_eq _ _ _ hfetch]
  | some box =>
      obtain ⟨bh, ba⟩ := box
      cases bh with
      | none => rw [processOne_missing_eq _ _ _ _ hfetch (Or.inl rfl)]
      | some hs =>
          cases ba with
          | none => rw [processOne_missing_eq _ _ _ _ hfetch (Or.inr rfl)]
          | some ats =>
              rw [processOne_success_eq _ _ _ _ _ _ hfetch rfl rfl]
              exact processSuccess_gameRows_frame _ _ _ _ _ h

theorem foldl_processOne_statRows_frame (fetchBoxscore : League → String → Option Boxscore)
    (gs : List Game) (acc : DB × ProcessCompletedGamesResult) (n t : Nat)
    (h : ∀ x ∈ gs, x.id ≠ n) :
    statRowsFor ((gs.foldl (processOne fetchBoxscore) acc)).1.stats n t =
      statRowsFor acc.1.stats n t := by
  induction gs generalizing acc with
  | nil => rfl
  | cons x rest ih =>
      simp only [List.foldl_cons]
      rw [ih _ (fun y hy => h y (List.mem_cons_of_mem _ hy)),
        processOne_statRows_frame _ _ _ _ _ (h x (List.mem_cons_self _ _))]

theorem foldl_processOne_gameRows_frame (fetchBoxscore : League → String → Option Boxscore)
    (gs : List Game) (acc : DB × ProcessCompletedGamesResult) (n : Nat)
    (h : ∀ x ∈ gs, x.id ≠ n) :
    gameRowsFor ((gs.foldl (processOne fetchBoxscore) acc)).1.games n =
      gameRowsFor acc.1.games n := by
  induction gs generalizing acc with
  | nil => rfl
  | cons x rest ih =>
      simp only [List.foldl_cons]
      rw [ih _ (fun y hy => h y (List.mem_cons_of_mem _ hy)),
        processOne_gameRows_frame _ _ _ _ (h x (List.mem_cons_self _ _))]

theorem statRowsFor_append (l1 l2 : List TeamGameStats) (n t : Nat) :
    statRowsFor (l1 ++ l2) n t = statRowsFor l1 n t ++ statRowsFor l2 n t :=
  List.filter_append _ _

theorem homeRowOf_gameId (game : Game) (hs ats : BoxscoreStats) :
    (homeRowOf game hs ats).gameId = game.id := rfl

theorem homeRowOf_teamId (game : Game) (hs ats : BoxscoreStats) :
    (homeRowOf game hs ats).teamId = game.homeTeamId := rfl

theorem awayRowOf_gameId (game : Game) (hs ats : BoxscoreStats) :
    (awayRowOf game hs ats).gameId = game.id := rfl

theorem awayRowOf_teamId (game : Game) (hs ats : BoxscoreStats) :
    (awayRowOf game hs ats).teamId = game.awayTeamId := rfl

theorem upsertTeamGameStats_insert (rows : List TeamGameStats) (row : TeamGameStats)
    (hnew : statRowsFor rows row.gameId row.teamId = []) :
    upsertTeamGameStats rows row = rows ++ [row] := by
  unfold upsertTeamGameStats
  rw [if_neg ?hne]
  case hne =>
    intro hany
    obtain ⟨r, hr, hkey⟩ := List.any_eq_true.mp hany
    unfold statRowsFor at hnew
    have := List.filter_eq_nil.mp hnew r hr
    exact this hkey

theorem processSuccess_statRows (acc : DB × ProcessCompletedGamesResult) (game : Game)
    (hs ats : BoxscoreStats) (hteams : game.homeTeamId ≠ game.awayTeamId)
    (hhome0 : statRowsFor acc.1.stats game.id game.homeTeamId = [])
    (haway0 : statRowsFor acc.1.stats game.id game.awayTeamId = []) :
    statRowsFor (processSuccess acc game hs ats).1.stats game.id game.homeTeamId =
      [homeRowOf game hs ats] ∧
    statRowsFor (processSuccess acc game hs ats).1.stats game.id game.awayTeamId =
      [awayRowOf game hs ats] := by
  rw [processSuccess_stats]
  have h1 : upsertTeamGameStats acc.1.stats (homeRowOf game hs ats) =
      acc.1.stats ++ [homeRowOf game hs ats] :=
    upsertTeamGameStats_insert _ _ hhome0
  have hsinglehome : statRowsFor [homeRowOf game hs ats] game.id game.homeTeamId =
      [homeRowOf game hs ats] := by
    simp [statRowsFor, homeRowOf_gameId, homeRowOf_teamId]
  have hsinglehome_away : statRowsFor [homeRowOf game hs ats] game.id game.awayTeamId = [] := by
    simp [statRowsFor, homeRowOf_gameId, homeRowOf_teamId]
    intro h1
    exact hteams h1
  have hs1home : statRowsFor (acc.1.stats ++ [homeRowOf game hs ats]) game.id game.homeTeamId =
      [homeRowOf game hs ats] := by
    rw [statRowsFor_append, hhome0, hsinglehome]
    rfl
  have hs1away : statRowsFor (acc.1.stats ++ [homeRowOf game hs ats]) game.id game.awayTeamId =
      [] := by
    rw [statRowsFor_append, haway0, hsinglehome_away]
    rfl
  have h2 : upsertTeamGameStats (acc.1.stats ++ [homeRowOf game hs ats])
      (awayRowOf game hs ats) =
      (acc.1.stats ++ [homeRowOf game hs ats]) ++ [awayRowOf game hs ats] :=
    upsertTeamGameStats_insert _ _ hs1away
  have hsingleaway_home : statRowsFor [awayRowOf game hs ats] game.id game.homeTeamId = [] := by
    simp [statRowsFor, awayRowOf_gameId, awayRowOf_teamId]
    intro h1
    exact hteams h1.symm
  have hsingleaway : statRowsFor [awayRowOf game hs ats] game.id game.awayTeamId =
      [awayRowOf game hs ats] := by
    simp [statRowsFor, awayRowOf_gameId, awayRowOf_teamId]
  rw [h1, h2]
  constructor
  · rw [statRowsFor_append, hs1home, hsingleaway_home, List.append_nil]
  · rw [statRowsFor_append, hs1away, hsingleaway]
    rfl

theorem markProcessedUpdate_id (game : Game) (hs ats : BoxscoreStats) (g2 : Game) :
    (markProcessedUpdate game hs ats g2).id = g2.id := by
  unfold markProcessedUpdate
  split <;> rfl

theorem markProcessedUpdate_eq_of_id (game : Game) (hs ats : BoxscoreStats) (g2 : Game)
    (h : g2.id = game.id) :
    markProcessedUpdate game hs ats g2 =
      { g2 with statsProcessed := true
                homeScore := hs.points.or game.homeScore
                awayScore := ats.points.or game.awayScore } := by
  unfold markProcessedUpdate
  rw [if_pos (by simp [h])]
  cases hs.points <;> cases ats.points <;> rfl

theorem markProcessedUpdate_eq_of_ne (game : Game) (hs ats : BoxscoreStats) (g2 : Game)
    (h : ¬ g2.id = game.id) : markProcessedUpdate game hs ats g2 = g2 := by
  unfold markProcessedUpdate
  rw [if_neg (by simp [h])]

theorem processSuccess_processed (acc : DB × ProcessCompletedGamesResult) (game : Game)
    (hs ats : BoxscoreStats) :
    ∀ x ∈ (processSuccess acc game hs ats).1.games, x.id = game.id →
      x.statsProcessed = true := by
  rw [processSuccess_games]
  intro x hx hid
  obtain ⟨y, hy, rfl⟩ := List.mem_map.mp hx
  by_cases hk : y.id = game.id
  · rw [markProcessedUpdate_eq_of_id _ _ _ _ hk]
  · rw [markProcessedUpdate_eq_of_ne _ _ _ _ hk] at hid ⊢
    exact absurd hid hk

theorem selectUnprocessed_perm (d : DB) :
    (selectUnprocessedFinalGames d).Perm
      (d.games.filter (fun g => g.status == GameStatus.FINAL && !g.statsProcessed)) :=
  List.perm_insertionSort _ _

theorem selectUnprocessed_sorted (d : DB) :
    (selectUnprocessedFinalGames d).Sorted gameDateLe :=
  List.sorted_insertionSort _ _

theorem mem_selectUnprocessed (d : DB) (x : Game) :
    x ∈ selectUnprocessedFinalGames d ↔
      x ∈ d.games ∧ x.status = GameStatus.FINAL ∧ x.statsProcessed = false := by
  unfold selectUnprocessedFinalGames
  rw [List.mem_insertionSort, List.mem_filter]
  simp [and_assoc]

theorem selectUnprocessed_ids_nodup (d : DB) (h : (d.games.map Game.id).Nodup) :
    ((selectUnprocessedFinalGames d).map Game.id).Nodup := by
  have hperm := (selectUnprocessed_perm d).map Game.id
  rw [hperm.nodup_iff]
  exact List.Nodup.sublist (List.Sublist.map _ (List.filter_sublist _)) h

theorem split_at_unique_id (sel : List Game) (g : Game) (hmem : g ∈ sel)
    (hnodup : (sel.map Game.id).Nodup) :
    ∃ l1 l2, sel = l1 ++ g :: l2 ∧ (∀ x ∈ l1, x.id ≠ g.id) ∧ (∀ x ∈ l2, x.id ≠ g.id) := by
  obtain ⟨l1, l2, rfl⟩ := List.append_of_mem hmem
  rw [List.map_append, List.map_cons, List.nodup_append] at hnodup
  refine ⟨l1, l2, rfl, ?_, ?_⟩
  · intro x hx heq
    exact hnodup.2.2 (List.mem_map_of_mem _ hx) (by rw [heq]; exact List.mem_cons_self _ _)
  · intro x hx heq
    have hcons := hnodup.2.1
    rw [List.nodup_cons] at hcons
    exact hcons.1 (by rw [← heq]; exact List.mem_map_of_mem _ hx)

theorem processCompletedGames_statRows_frame (fetchBoxscore : League → String → Option Boxscore)
    (db : DB) (n t : Nat)
    (h : ∀ x ∈ selectUnprocessedFinalGames db, x.id ≠ n) :
    statRowsFor (processCompletedGames fetchBoxscore db).1.stats n t =
      statRowsFor db.stats n t := by
  unfold processCompletedGames
  exact foldl_processOne_statRows_frame _ _ _ _ _ h

/-- Claim C1: the processor selects exactly the FINAL unprocessed games in
ascending scheduled-time order, and for a selected game with a complete
boxscore, the first run writes exactly the two TeamGameStats rows (one per
side) and sets statsProcessed, while the second run no longer selects the
game and leaves its rows untouched — the rows are written exactly once. -/
theorem processCompletedGames_exactly_once
    (fetchBoxscore : League → String → Option Boxscore) (db : DB) (g : Game)
    (box : Boxscore) (hs ats : BoxscoreStats)
    (hmem : g ∈ db.games) (hfinal : g.status = GameStatus.FINAL)
    (hunproc : g.statsProcessed = false)
    (hids : (db.games.map Game.id).Nodup)
    (hteams : g.homeTeamId ≠ g.awayTeamId)
    (hhome0 : statRowsFor db.stats g.id g.homeTeamId = [])
    (haway0 : statRowsFor db.stats g.id g.awayTeamId = [])
    (hfetch : fetchBoxscore g.league g.providerGameId = some box)
    (hhome : box.home = some hs) (haway : box.away = some ats) :
    (∀ d : DB, (selectUnprocessedFinalGames d).Perm
        (d.games.filter (fun x => x.status == GameStatus.FINAL && !x.statsProcessed)) ∧
      (selectUnprocessedFinalGames d).Sorted gameDateLe) ∧
    statRowsFor (processCompletedGames fetchBoxscore db).1.stats g.id g.homeTeamId =
      [homeRowOf g hs ats] ∧
    statRowsFor (processCompletedGames fetchBoxscore db).1.stats g.id g.awayTeamId =
      [awayRowOf g hs ats] ∧
    (∀ x ∈ (processCompletedGames fetchBoxscore db).1.games, x.id = g.id →
      x.statsProcessed = true) ∧
    (∀ x ∈ selectUnprocessedFinalGames (processCompletedGames fetchBoxscore db).1,
      x.id ≠ g.id) ∧
    statRowsFor
        (processCompletedGames fetchBoxscore
          (processCompletedGames fetchBoxscore db).1).1.stats g.id g.homeTeamId =
      [homeRowOf g hs ats] ∧
    statRowsFor
        (processCompletedGames fetchBoxscore
          (processCompletedGames fetchBoxscore db).1).1.stats g.id g.awayTeamId =
      [awayRowOf g hs ats] := by
  have hgsel : g ∈ selectUnprocessedFinalGames db :=
    (mem_selectUnprocessed db g).mpr ⟨hmem, hfinal, hunproc⟩
  obtain ⟨l1, l2, hsplit, hl1, hl2⟩ :=
    split_at_unique_id _ g hgsel (selectUnprocessed_ids_nodup db hids)
  have hrun1 : processCompletedGames fetchBoxscore db =
      l2.foldl (processOne fetchBoxscore)
        (processOne fetchBoxscore
          (l1.foldl (processOne fetchBoxscore)
            (db, { gamesFound := (l1 ++ g :: l2).length, gamesProcessed := 0
                   gamesSkipped := 0, errors := [] })) g) := by
    unfold processCompletedGames
    rw [hsplit, List.foldl_append, List.foldl_cons]
  have hacc1home : statRowsFor (l1.foldl (processOne fetchBoxscore)
      (db, { gamesFound := (l1 ++ g :: l2).length, gamesProcessed := 0
             gamesSkipped := 0, errors := [] })).1.stats g.id g.homeTeamId = [] := by
    rw [foldl_processOne_statRows_frame _ _ _ _ _ hl1]
    exact hhome0
  have hacc1away : statRowsFor (l1.foldl (processOne fetchBoxscore)
      (db, { gamesFound := (l1 ++ g :: l2).length, gamesProcessed := 0
             gamesSkipped := 0, errors := [] })).1.stats g.id g.awayTeamId = [] := by
    rw [foldl_processOne_statRows_frame _ _ _ _ _ hl1]
    exact haway0
  have hstepeq : processOne fetchBoxscore
      (l1.foldl (processOne fetchBoxscore)
        (db, { gamesFound := (l1 ++ g :: l2).length, gamesProcessed := 0
               gamesSkipped := 0, errors := [] })) g =
      processSuccess (l1.foldl (processOne fetchBoxscore)
        (db, { gamesFound := (l1 ++ g :: l2).length, gamesProcessed := 0
               gamesSkipped := 0, errors := [] })) g hs ats :=
    processOne_success_eq _ _ _ _ _ _ hfetch hhome haway
  have hstep := processSuccess_statRows
    (l1.foldl (processOne fetchBoxscore)
      (db, { gamesFound := (l1 ++ g :: l2).length, gamesProcessed := 0
             gamesSkipped := 0, errors := [] })) g hs ats hteams hacc1home hacc1away
  have hrun1home : statRowsFor (processCompletedGames fetchBoxscore db).1.stats
      g.id g.homeTeamId = [homeRowOf g hs ats] := by
    rw [hrun1, foldl_processOne_statRows_frame _ _ _ _ _ hl2, hstepeq]
    exact hstep.1
  have hrun1away : statRowsFor (processCompletedGames fetchBoxscore db).1.stats
      g.id g.awayTeamId = [awayRowOf g hs ats] := by
    rw [hrun1, foldl_processOne_statRows_frame _ _ _ _ _ hl2, hstepeq]
    exact hstep.2
  have hstepproc : ∀ x ∈ (processOne fetchBoxscore
      (l1.foldl (processOne fetchBoxscore)
        (db, { gamesFound := (l1 ++ g :: l2).length, gamesProcessed := 0
               gamesSkipped := 0, errors := [] })) g).1.games,
      x.id = g.id → x.statsProcessed = true := by
    rw [hstepeq]
    exact processSuccess_processed _ _ _ _
  have hgr : gameRowsFor (processCompletedGames fetchBoxscore db).1.games g.id =
      gameRowsFor (processOne fetchBoxscore
        (l1.foldl (processOne fetchBoxscore)
          (db, { gamesFound := (l1 ++ g :: l2).length, gamesProcessed := 0
                 gamesSkipped := 0, errors := [] })) g).1.games g.id := by
    rw [hrun1]
    exact foldl_processOne_gameRows_frame _ _ _ _ hl2
  have hrun1proc : ∀ x ∈ (processCompletedGames fetchBoxscore db).1.games,
      x.id = g.id → x.statsProcessed = true := by
    intro x hx heq
    have hxmem : x ∈ gameRowsFor (processCompletedGames fetchBoxscore db).1.games g.id := by
      unfold gameRowsFor
      rw [List.mem_filter]
      exact ⟨hx, by simp [heq]⟩
    rw [hgr] at hxmem
    unfold gameRowsFor at hxmem
    rw [List.mem_filter] at hxmem
    exact hstepproc x hxmem.1 heq
  have hsel2 : ∀ x ∈ selectUnprocessedFinalGames (processCompletedGames fetchBoxscore db).1,
      x.id ≠ g.id := by
    intro x hx heq
    obtain ⟨hxg, hxf, hxp⟩ := (mem_selectUnprocessed _ _).mp hx
    have hxt := hrun1proc x hxg heq
    rw [hxp] at hxt
    exact Bool.noConfusion hxt
  refine ⟨fun d => ⟨selectUnprocessed_perm d, selectUnprocessed_sorted d⟩,
    hrun1home, hrun1away, hrun1proc, hsel2, ?_, ?_⟩
  · rw [processCompletedGames_statRows_frame _ _ _ _ hsel2]
    exact hrun1home
  · rw [processCompletedGames_statRows_frame _ _ _ _ hsel2]
    exact hrun1away

/-- A selected game is skipped exactly when its boxscore is unavailable or
either statistics block is absent. -/
def skipsGame (fetchBoxscore : League → String → Option Boxscore) (x : Game) : Bool :=
  match fetchBoxscore x.league x.providerGameId with
  | none => true
  | some box => box.home.isNone || box.away.isNone

theorem processOne_skip_eq (fetchBoxscore : League → String → Option Boxscore) (x : Game)
    (h : skipsGame fetchBoxscore x = true) (acc : DB × ProcessCompletedGamesResult) :
    processOne fetchBoxscore acc x =
      (acc.1, { acc.2 with gamesSkipped := acc.2.gamesSkipped + 1 }) := by
  unfold skipsGame at h
  cases hfetch : fetchBoxscore x.league x.providerGameId with
  | none => exact processOne_none_eq _ _ _ hfetch
  | some box =>
      rw [hfetch] at h
      obtain ⟨bh, ba⟩ := box
      cases bh with
      | none => exact processOne_missing_eq _ _ _ _ hfetch (Or.inl rfl)
      | some hs =>
          cases ba with
          | none => exact processOne_missing_eq _ _ _ _ hfetch (Or.inr rfl)
          | some ats => exact Bool.noConfusion h

theorem processOne_success_of_not_skip (fetchBoxscore : League → String → Option Boxscore)
    (x : Game) (h : skipsGame fetchBoxscore x = false)
    (acc : DB × ProcessCompletedGamesResult) :
    ∃ hs ats, processOne fetchBoxscore acc x = processSuccess acc x hs ats := by
  unfold skipsGame at h
  cases hfetch : fetchBoxscore x.league x.providerGameId with
  | none => rw [hfetch] at h; exact Bool.noConfusion h
  | some box =>
      rw [hfetch] at h
      obtain ⟨bh, ba⟩ := box
      cases bh with
      | none => exact Bool.noConfusion h
      | some hs =>
          cases ba with
          | none => exact Bool.noConfusion h
          | some ats => exact ⟨hs, ats, processOne_success_eq _ _ _ _ _ _ hfetch rfl rfl⟩

theorem processOne_counts (fetchBoxscore : League → String → Option Boxscore)
    (acc : DB × ProcessCompletedGamesResult) (x : Game) :
    (processOne fetchBoxscore acc x).2.gamesSkipped =
      acc.2.gamesSkipped + (if skipsGame fetchBoxscore x then 1 else 0) ∧
    (processOne fetchBoxscore acc x).2.gamesProcessed =
      acc.2.gamesProcessed + (if skipsGame fetchBoxscore x then 0 else 1) ∧
    (processOne fetchBoxscore acc x).2.gamesFound = acc.2.gamesFound := by
  cases hskip : skipsGame fetchBoxscore x with
  | true =>
      rw [processOne_skip_eq _ _ hskip]
      exact ⟨rfl, rfl, rfl⟩
  | false =>
      obtain ⟨hs, ats, heq⟩ := processOne_success_of_not_skip _ _ hskip acc
      rw [heq, processSuccess_res]
      exact ⟨rfl, rfl, rfl⟩

theorem foldl_processOne_counts (fetchBoxscore : League → String → Option Boxscore)
    (gs : List Game) (acc : DB × ProcessCompletedGamesResult) :
    ((gs.foldl (processOne fetchBoxscore) acc)).2.gamesSkipped =
      acc.2.gamesSkipped + (gs.filter (skipsGame fetchBoxscore)).length ∧
    ((gs.foldl (processOne fetchBoxscore) acc)).2.gamesProcessed =
      acc.2.gamesProcessed + (gs.filter (fun x => !skipsGame fetchBoxscore x)).length ∧
    ((gs.foldl (processOne fetchBoxscore) acc)).2.gamesFound = acc.2.gamesFound := by
  induction gs generalizing acc with
  | nil => exact ⟨rfl, rfl, rfl⟩
  | cons x rest ih =>
      simp only [List.foldl_cons, List.filter_cons]
      have hstep := processOne_counts fetchBoxscore acc x
      have hr := ih (processOne fetchBoxscore acc x)
      cases hskip : skipsGame fetchBoxscore x with
      | true =>
          rw [hskip] at hstep
          refine ⟨?_, ?_, hr.2.2.trans hstep.2.2⟩
          · rw [hr.1, hstep.1]
            simp [List.length_cons]
            omega
          · rw [hr.2.1, hstep.2.1]
            simp [List.length_cons]
      | false =>
          rw [hskip] at hstep
          refine ⟨?_, ?_, hr.2.2.trans hstep.2.2⟩
          · rw [hr.1, hstep.1]
            simp [List.length_cons]
          · rw [hr.2.1, hstep.2.1]
            simp [List.length_cons]
            omega

theorem inj_on_of_ids_nodup (games : List Game) (h : (games.map Game.id).Nodup)
    (x y : Game) (hx : x ∈ games) (hy : y ∈ games) (heq : x.id = y.id) : x = y := by
  induction games with
  | nil => cases hx
  | cons a l ih =>
      rw [List.map_cons, List.nodup_cons] at h
      rcases List.mem_cons.mp hx with rfl | hx2 <;> rcases List.mem_cons.mp hy with rfl | hy2
      · rfl
      · exact absurd (by rw [heq]; exact List.mem_map_of_mem _ hy2) h.1
      · exact absurd (by rw [← heq]; exact List.mem_map_of_mem _ hx2) h.1
      · exact ih h.2 hx2 hy2

/-- Claim C7: a FINAL, unprocessed game whose boxscore is unavailable or
missing a statistics block is counted in gamesSkipped (never in
gamesProcessed), causes no TeamGameStats write and no rollup recompute (the
per-game step returns the store unchanged), keeps statsProcessed false, and
is selected again by the next invocation. -/
theorem processCompletedGames_skip_semantics
    (fetchBoxscore : League → String → Option Boxscore) (db : DB) (g : Game)
    (hmem : g ∈ db.games) (hfinal : g.status = GameStatus.FINAL)
    (hunproc : g.statsProcessed = false)
    (hids : (db.games.map Game.id).Nodup)
    (hskip : skipsGame fetchBoxscore g = true) :
    (∀ acc : DB × ProcessCompletedGamesResult, processOne fetchBoxscore acc g =
      (acc.1, { acc.2 with gamesSkipped := acc.2.gamesSkipped + 1 })) ∧
    (processCompletedGames fetchBoxscore db).2.gamesSkipped =
      ((selectUnprocessedFinalGames db).filter (skipsGame fetchBoxscore)).length ∧
    (processCompletedGames fetchBoxscore db).2.gamesProcessed =
      ((selectUnprocessedFinalGames db).filter
        (fun x => !skipsGame fetchBoxscore x)).length ∧
    g ∈ (selectUnprocessedFinalGames db).filter (skipsGame fetchBoxscore) ∧
    statRowsFor (processCompletedGames fetchBoxscore db).1.stats g.id g.homeTeamId =
      statRowsFor db.stats g.id g.homeTeamId ∧
    statRowsFor (processCompletedGames fetchBoxscore db).1.stats g.id g.awayTeamId =
      statRowsFor db.stats g.id g.awayTeamId ∧
    (∀ x ∈ (processCompletedGames fetchBoxscore db).1.games, x.id = g.id →
      x.statsProcessed = false) ∧
    g ∈ selectUnprocessedFinalGames (processCompletedGames fetchBoxscore db).1 := by
  have hgsel : g ∈ selectUnprocessedFinalGames db :=
    (mem_selectUnprocessed db g).mpr ⟨hmem, hfinal, hunproc⟩
  obtain ⟨l1, l2, hsplit, hl1, hl2⟩ :=
    split_at_unique_id _ g hgsel (selectUnprocessed_ids_nodup db hids)
  have hrun1 : processCompletedGames fetchBoxscore db =
      l2.foldl (processOne fetchBoxscore)
        (processOne fetchBoxscore
          (l1.foldl (processOne fetchBoxscore)
            (db, { gamesFound := (l1 ++ g :: l2).length, gamesProcessed := 0
                   gamesSkipped := 0, errors := [] })) g) := by
    unfold processCompletedGames
    rw [hsplit, List.foldl_append, List.foldl_cons]
  have hcounts := foldl_processOne_counts fetchBoxscore (selectUnprocessedFinalGames db)
    (db, { gamesFound := (selectUnprocessedFinalGames db).length, gamesProcessed := 0
           gamesSkipped := 0, errors := [] })
  have hstats_home : statRowsFor (processCompletedGames fetchBoxscore db).1.stats
      g.id g.homeTeamId = statRowsFor db.stats g.id g.homeTeamId := by
    rw [hrun1, foldl_processOne_statRows_frame _ _ _ _ _ hl2,
      processOne_skip_eq _ _ hskip]
    exact foldl_processOne_statRows_frame _ _ _ _ _ hl1
  have hstats_away : statRowsFor (processCompletedGames fetchBoxscore db).1.stats
      g.id g.awayTeamId = statRowsFor db.stats g.id g.awayTeamId := by
    rw [hrun1, foldl_processOne_statRows_frame _ _ _ _ _ hl2,
      processOne_skip_eq _ _ hskip]
    exact foldl_processOne_statRows_frame _ _ _ _ _ hl1
  have hgr : gameRowsFor (processCompletedGames fetchBoxscore db).1.games g.id =
      gameRowsFor db.games g.id := by
    rw [hrun1, foldl_processOne_gameRows_frame _ _ _ _ hl2,
      processOne_skip_eq _ _ hskip]
    exact foldl_processOne_gameRows_frame _ _ _ _ hl1
  have hgmem : g ∈ gameRowsFor db.games g.id := by
    unfold gameRowsFor
    rw [List.mem_filter]
    exact ⟨hmem, by simp⟩
  have hrows_db : ∀ x ∈ gameRowsFor db.games g.id, x.statsProcessed = false := by
    intro x hx
    unfold gameRowsFor at hx
    rw [List.mem_filter] at hx
    have hxg : x = g := inj_on_of_ids_nodup db.games hids x g hx.1 hmem (by simpa using hx.2)
    rw [hxg, hunproc]
  have hproc : ∀ x ∈ (processCompletedGames fetchBoxscore db).1.games, x.id = g.id →
      x.statsProcessed = false := by
    intro x hx heq
    have hxmem : x ∈ gameRowsFor (processCompletedGames fetchBoxscore db).1.games g.id := by
      unfold gameRowsFor
      rw [List.mem_filter]
      exact ⟨hx, by simp [heq]⟩
    rw [hgr] at hxmem
    exact hrows_db x hxmem
  have hretry : g ∈ selectUnprocessedFinalGames (processCompletedGames fetchBoxscore db).1 := by
    have hg2 : g ∈ gameRowsFor (processCompletedGames fetchBoxscore db).1.games g.id := by
      rw [hgr]
      exact hgmem
    unfold gameRowsFor at hg2
    rw [List.mem_filter] at hg2
    exact (mem_selectUnprocessed _ _).mpr ⟨hg2.1, hfinal, hunproc⟩
  refine ⟨fun acc => processOne_skip_eq _ _ hskip acc, ?_, ?_,
    List.mem_filter.mpr ⟨hgsel, hskip⟩, hstats_home, hstats_away, hproc, hretry⟩
  · unfold processCompletedGames
    simpa using hcounts.1
  · unfold processCompletedGames
    simpa using hcounts.2.1

theorem rollupOverwrite_teamId (agg r : TeamSeasonRollup) :
    (rollupOverwrite agg r).teamId = r.teamId := rfl

theorem rollupAggregate_teamId (stats : List TeamGameStats) (teamId : Nat) (league : League)
    (season : String) : (rollupAggregate stats teamId league season).teamId = teamId := rfl

theorem updateTSR_eq_update (teamId : Nat) (league : League) (season : String) (db : DB)
    (hany : db.rollups.any (fun r => r.teamId == teamId) = true) :
    updateTeamSeasonRollup teamId league season db =
      { db with rollups := db.rollups.map (fun r =>
          if r.teamId == teamId then
            rollupOverwrite (rollupAggregate db.stats teamId league season) r
          else r) } := by
  unfold updateTeamSeasonRollup
  rw [if_pos hany]

theorem updateTSR_eq_insert (teamId : Nat) (league : League) (season : String) (db : DB)
    (hany : db.rollups.any (fun r => r.teamId == teamId) = false) :
    updateTeamSeasonRollup teamId league season db =
      { db with rollups := db.rollups ++ [rollupAggregate db.stats teamId league season] } := by
  unfold updateTeamSeasonRollup
  rw [if_neg (by simp [hany])]

theorem overwrite_map_pred (teamId : Nat) (agg : TeamSeasonRollup)
    (l : List TeamSeasonRollup) :
    (l.map (fun r => if r.teamId == teamId then rollupOverwrite agg r else r)).any
        (fun r => r.teamId == teamId) =
      l.any (fun r => r.teamId == teamId) := by
  rw [List.any_map]
  congr 1
  funext r
  by_cases hb : (r.teamId == teamId) = true
  · simp only [Function.comp_apply, if_pos hb, rollupOverwrite_teamId]
  · simp only [Function.comp_apply, if_neg hb]

theorem overwrite_map_idem (teamId : Nat) (agg : TeamSeasonRollup)
    (l : List TeamSeasonRollup) :
    (l.map (fun r => if r.teamId == teamId then rollupOverwrite agg r else r)).map
        (fun r => if r.teamId == teamId then rollupOverwrite agg r else r) =
      l.map (fun r => if r.teamId == teamId then rollupOverwrite agg r else r) := by
  rw [List.map_map]
  apply List.map_congr_left
  intro r _
  simp only [Function.comp_apply]
  by_cases hb : (r.teamId == teamId) = true
  · rw [if_pos hb,
      if_pos (show ((rollupOverwrite agg r).teamId == teamId) = true from by
        rw [rollupOverwrite_teamId]; exact hb)]
    rfl
  · rw [if_neg hb, if_neg hb]

/-- Claim C2: after a rollup recompute the rollup row of the team has
gamesPlayed equal to the count of that team TeamGameStats rows for the
league and season and every total equal to the corresponding column sum;
the row is fully overwritten, so recomputing again is the identity (any
number of repeated recomputations yields the same rollup). -/
theorem updateTeamSeasonRollup_spec (teamId : Nat) (league : League) (season : String)
    (db : DB) :
    (∃ r ∈ (updateTeamSeasonRollup teamId league season db).rollups, r.teamId = teamId) ∧
    (∀ r ∈ (updateTeamSeasonRollup teamId league season db).rollups, r.teamId = teamId →
      r.gamesPlayed = (statsForTeam db.stats teamId league season).length ∧
      r.off2ptmTotal = sumBy (statsForTeam db.stats teamId league season) (fun x => x.off2ptm) ∧
      r.off2ptaTotal = sumBy (statsForTeam db.stats teamId league season) (fun x => x.off2pta) ∧
      r.off3ptmTotal = sumBy (statsForTeam db.stats teamId league season) (fun x => x.off3ptm) ∧
      r.off3ptaTotal = sumBy (statsForTeam db.stats teamId league season) (fun x => x.off3pta) ∧
      r.offFtmTotal = sumBy (statsForTeam db.stats teamId league season) (fun x => x.offFtm) ∧
      r.offFtaTotal = sumBy (statsForTeam db.stats teamId league season) (fun x => x.offFta) ∧
      r.def2ptmAllowedTotal =
        sumBy (statsForTeam db.stats teamId league season) (fun x => x.def2ptmAllowed) ∧
      r.def2ptaAllowedTotal =
        sumBy (statsForTeam db.stats teamId league season) (fun x => x.def2ptaAllowed) ∧
      r.def3ptmAllowedTotal =
        sumBy (statsForTeam db.stats teamId league season) (fun x => x.def3ptmAllowed) ∧
      r.def3ptaAllowedTotal =
        sumBy (statsForTeam db.stats teamId league season) (fun x => x.def3ptaAllowed) ∧
      r.defFtmAllowedTotal =
        sumBy (statsForTeam db.stats teamId league season) (fun x => x.defFtmAllowed) ∧
      r.defFtaAllowedTotal =
        sumBy (statsForTeam db.stats teamId league season) (fun x => x.defFtaAllowed)) ∧
    updateTeamSeasonRollup teamId league season (updateTeamSeasonRollup teamId league season db) =
      updateTeamSeasonRollup teamId league season db := by
  by_cases hany : db.rollups.any (fun r => r.teamId == teamId) = true
  · have hred := updateTSR_eq_update teamId league season db hany
    refine ⟨?_, ?_, ?_⟩
    · obtain ⟨r0, hr0, hb⟩ := List.any_eq_true.mp hany
      rw [hred]
      refine ⟨_, List.mem_map_of_mem _ hr0, ?_⟩
      rw [if_pos hb, rollupOverwrite_teamId]
      exact beq_iff_eq.mp hb
    · rw [hred]
      intro r hr hteam
      obtain ⟨r0, hr0, rfl⟩ := List.mem_map.mp hr
      by_cases hb : (r0.teamId == teamId) = true
      · rw [if_pos hb]
        exact ⟨rfl, rfl, rfl, rfl, rfl, rfl, rfl, rfl, rfl, rfl, rfl, rfl, rfl⟩
      · rw [if_neg hb] at hteam
        exact absurd (by simp [hteam]) hb
    · rw [hred]
      have hany2 : ({ db with rollups := db.rollups.map (fun r =>
          if r.teamId == teamId then
            rollupOverwrite (rollupAggregate db.stats teamId league season) r
          else r) } : DB).rollups.any (fun r => r.teamId == teamId) = true := by
        simp only []
        rw [overwrite_map_pred]
        exact hany
      rw [updateTSR_eq_update _ _ _ _ hany2]
      simp only []
      rw [overwrite_map_idem]
  · have hany' : db.rollups.any (fun r => r.teamId == teamId) = false := by
      simpa using hany
    have hred := updateTSR_eq_insert teamId league season db hany'
    have hnone : ∀ r ∈ db.rollups, (r.teamId == teamId) = false := by
      intro r hr
      by_cases hb : (r.teamId == teamId) = true
      · exact absurd (List.any_eq_true.mpr ⟨r, hr, hb⟩) hany
      · exact Bool.eq_false_iff.mpr hb
    refine ⟨?_, ?_, ?_⟩
    · rw [hred]
      exact ⟨rollupAggregate db.stats teamId league season, by simp, rfl⟩
    · rw [hred]
      intro r hr hteam
      rcases List.mem_append.mp hr with hleft | hright
      · have htrue : (r.teamId == teamId) = true := by simp [hteam]
        rw [hnone r hleft] at htrue
        exact Bool.noConfusion htrue
      · have : r = rollupAggregate db.stats teamId league season := by simpa using hright
        rw [this]
        exact ⟨rfl, rfl, rfl, rfl, rfl, rfl, rfl, rfl, rfl, rfl, rfl, rfl, rfl⟩
    · rw [hred]
      have hany2 : ({ db with rollups :=
          db.rollups ++ [rollupAggregate db.stats teamId league season] } : DB).rollups.any
          (fun r => r.teamId == teamId) = true := by
        simp only []
        rw [List.any_append]
        have hsingle : ([rollupAggregate db.stats teamId league season].any
            (fun r => r.teamId == teamId)) = true := by
          simp [rollupAggregate_teamId]
        rw [hsingle, Bool.or_true]
      rw [updateTSR_eq_update _ _ _ _ hany2]
      simp only [List.map_append]
      have hmapl : db.rollups.map (fun r =>
          if r.teamId == teamId then
            rollupOverwrite (rollupAggregate db.stats teamId league season) r
          else r) = db.rollups := by
        have h1 : db.rollups.map (fun r =>
            if r.teamId == teamId then
              rollupOverwrite (rollupAggregate db.stats teamId league season) r
            else r) = db.rollups.map id := by
          apply List.map_congr_left
          intro r hr
          show (if (r.teamId == teamId) = true then
            rollupOverwrite (rollupAggregate db.stats teamId league season) r else r) = id r
          rw [if_neg (show ¬((r.teamId == teamId) = true) from by
            rw [hnone r hr]; exact Bool.false_ne_true)]
          rfl
        rw [h1, List.map_id]
      rw [hmapl]
      have hmapr : [rollupAggregate db.stats teamId league season].map (fun r =>
          if r.teamId == teamId then
            rollupOverwrite (rollupAggregate db.stats teamId league season) r
          else r) = [rollupAggregate db.stats teamId league season] := by
        simp only [List.map_cons, List.map_nil]
        have hcond : ((rollupAggregate db.stats teamId league season).teamId == teamId) =
            true := by
          simp [rollupAggregate_teamId]
        rw [if_pos hcond]
        rfl
      rw [hmapr]

/-- Claim C9 (amended): on successful processing, the per-game update sets
statsProcessed and stores the boxscore points via the JS nullish-coalescing
operator — the boxscore points win whenever present (overwriting an already
stored score), and the previously stored score is kept only when the
boxscore has no points value; previously-null scores are therefore filled. -/
theorem processOne_success_score_semantics
    (fetchBoxscore : League → String → Option Boxscore)
    (acc : DB × ProcessCompletedGamesResult) (g : Game) (box : Boxscore)
    (hs ats : BoxscoreStats)
    (hfetch : fetchBoxscore g.league g.providerGameId = some box)
    (hhome : box.home = some hs) (haway : box.away = some ats) :
    ∀ x ∈ (processOne fetchBoxscore acc g).1.games, x.id = g.id →
      x.statsProcessed = true ∧
      x.homeScore = hs.points.or g.homeScore ∧
      x.awayScore = ats.points.or g.awayScore := by
  rw [processOne_success_eq _ _ _ _ _ _ hfetch hhome haway, processSuccess_games]
  intro x hx hid
  obtain ⟨y, hy, rfl⟩ := List.mem_map.mp hx
  by_cases hk : y.id = g.id
  · rw [markProcessedUpdate_eq_of_id _ _ _ _ hk]
    exact ⟨rfl, rfl, rfl⟩
  · rw [markProcessedUpdate_eq_of_ne _ _ _ _ hk] at hid
    exact absurd hid hk

/-- Home statistics block of the C9 counterexample boxscore. -/
def exStatsC9Home : BoxscoreStats :=
  { field_goals_made := 25, field_goals_att := 50, three_points_made := 5
    three_points_att := 15, free_throws_made := 10, free_throws_att := 12
    points := some 70 }

/-- Away statistics block of the C9 counterexample boxscore. -/
def exStatsC9Away : BoxscoreStats :=
  { field_goals_made := 22, field_goals_att := 48, three_points_made := 4
    three_points_att := 14, free_throws_made := 8, free_throws_att := 10
    points := some 60 }

/-- FINAL unprocessed game whose scores are already stored (and differ from
the boxscore points). -/
def exGameC9 : Game :=
  { id := 3, league := League.WOMENS, season := "2025-26", providerGameId := "g9"
    dateTime := 5, homeTeamId := 30, awayTeamId := 40, neutralSite := false
    status := GameStatus.FINAL, homeScore := some 50, awayScore := some 55
    statsProcessed := false, lastSyncedAt := 0 }

/-- Store holding only exGameC9. -/
def exDBC9 : DB :=
  { teams := [], games := [exGameC9], stats := [], rollups := [], nationals := []
    nextId := 9 }

/-- Upstream returning the C9 counterexample boxscore for every game. -/
def exFetchC9 : League → String → Option Boxscore :=
  fun _ _ => some { home := some exStatsC9Home, away := some exStatsC9Away }

/-- Counterexample to C9: exGameC9 already stores homeScore 50 and awayScore
55 (both non-null), yet after processing the stored scores are the boxscore
points 70 and 60 — the update does not keep previously non-null scores. -/
theorem processCompletedGames_score_overwrite_counterexample :
    exGameC9.homeScore = some 50 ∧ exGameC9.awayScore = some 55 ∧
    (processCompletedGames exFetchC9 exDBC9).1.games.map
        (fun x => (x.statsProcessed, x.homeScore, x.awayScore)) =
      [(true, some 70, some 60)] := by
  refine ⟨rfl, rfl, ?_⟩
  decide

/-- The row exGameC9 becomes after processing. -/
def exGameC9After : Game :=
  { exGameC9 with statsProcessed := true, homeScore := some 70, awayScore := some 60 }

/-- Witness for the amended C9 at the concrete store and boxscore. -/
theorem processOne_success_score_semantics_witness :
    exGameC9After.statsProcessed = true ∧
    exGameC9After.homeScore = exStatsC9Home.points.or exGameC9.homeScore ∧
    exGameC9After.awayScore = exStatsC9Away.points.or exGameC9.awayScore :=
  processOne_success_score_semantics exFetchC9
    (exDBC9, { gamesFound := 1, gamesProcessed := 0, gamesSkipped := 0, errors := [] })
    exGameC9 { home := some exStatsC9Home, away := some exStatsC9Away }
    exStatsC9Home exStatsC9Away rfl rfl rfl exGameC9After (by decide) rfl

/-- Complete boxscore statistics used by the C1 witness. -/
def exBoxStats : BoxscoreStats :=
  { field_goals_made := 30, field_goals_att := 60, three_points_made := 8
    three_points_att := 20, free_throws_made := 10, free_throws_att := 14
    points := some 78 }

/-- Complete boxscore used by the C1 witness. -/
def exBoxscoreC1 : Boxscore := { home := some exBoxStats, away := some exBoxStats }

/-- FINAL unprocessed game of the C1 witness. -/
def exGameC1 : Game :=
  { id := 1, league := League.MENS, season := "2025-26", providerGameId := "g1"
    dateTime := 100, homeTeamId := 10, awayTeamId := 20, neutralSite := false
    status := GameStatus.FINAL, homeScore := none, awayScore := none
    statsProcessed := false, lastSyncedAt := 0 }

/-- Store holding only exGameC1. -/
def exDBC1 : DB :=
  { teams := [], games := [exGameC1], stats := [], rollups := [], nationals := []
    nextId := 50 }

/-- Upstream returning the complete C1 boxscore for every game. -/
def exFetchC1 : League → String → Option Boxscore := fun _ _ => some exBoxscoreC1

/-- Witness for C1 at the concrete one-game store. -/
theorem processCompletedGames_exactly_once_witness :
    statRowsFor (processCompletedGames exFetchC1 exDBC1).1.stats 1 10 =
      [homeRowOf exGameC1 exBoxStats exBoxStats] ∧
    (∀ x ∈ selectUnprocessedFinalGames (processCompletedGames exFetchC1 exDBC1).1,
      x.id ≠ 1) := by
  have h := processCompletedGames_exactly_once exFetchC1 exDBC1 exGameC1 exBoxscoreC1
    exBoxStats exBoxStats (by decide) rfl rfl (by decide) (by decide) rfl rfl rfl rfl rfl
  exact ⟨h.2.1, h.2.2.2.2.1⟩

/-- Upstream with no boxscores at all, used by the C7 witness. -/
def exFetchC7 : League → String → Option Boxscore := fun _ _ => none

/-- FINAL unprocessed game of the C7 witness. -/
def exGameC7 : Game :=
  { id := 4, league := League.MENS, season := "2025-26", providerGameId := "g7"
    dateTime := 50, homeTeamId := 11, awayTeamId := 21, neutralSite := false
    status := GameStatus.FINAL, homeScore := none, awayScore := none
    statsProcessed := false, lastSyncedAt := 0 }

/-- Store holding only exGameC7. -/
def exDBC7 : DB :=
  { teams := [], games := [exGameC7], stats := [], rollups := [], nationals := []
    nextId := 60 }

/-- Witness for C7 at the concrete one-game store with an unavailable
boxscore. -/
theorem processCompletedGames_skip_semantics_witness :
    (processCompletedGames exFetchC7 exDBC7).2.gamesSkipped =
      ((selectUnprocessedFinalGames exDBC7).filter (skipsGame exFetchC7)).length ∧
    exGameC7 ∈ selectUnprocessedFinalGames (processCompletedGames exFetchC7 exDBC7).1 := by
  have h := processCompletedGames_skip_semantics exFetchC7 exDBC7 exGameC7
    (by decide) rfl rfl (by decide) rfl
  exact ⟨h.2.1, h.2.2.2.2.2.2.2⟩

/-- Witness for C2 at a concrete store with two stat rows for the team. -/
def exStatRow1 : TeamGameStats :=
  { gameId := 1, teamId := 10, opponentId := 20, league := League.MENS, season := "2025-26"
    off2ptm := 22, off2pta := 40, off3ptm := 8, off3pta := 20, offFtm := 10, offFta := 14
    def2ptmAllowed := 18, def2ptaAllowed := 35, def3ptmAllowed := 4, def3ptaAllowed := 16
    defFtmAllowed := 8, defFtaAllowed := 10 }

/-- Second concrete stat row of the C2 witness. -/
def exStatRow2 : TeamGameStats :=
  { gameId := 2, teamId := 10, opponentId := 30, league := League.MENS, season := "2025-26"
    off2ptm := 18, off2pta := 36, off3ptm := 6, off3pta := 18, offFtm := 12, offFta := 16
    def2ptmAllowed := 20, def2ptaAllowed := 38, def3ptmAllowed := 5, def3ptaAllowed := 17
    defFtmAllowed := 9, defFtaAllowed := 12 }

/-- Store of the C2 witness. -/
def exDBC2 : DB :=
  { teams := [], games := [], stats := [exStatRow1, exStatRow2], rollups := []
    nationals := [], nextId := 5 }

/-- Witness for C2: the recompute of team 10 creates a rollup with
gamesPlayed 2 and the column sums, and recomputing again changes nothing. -/
theorem updateTeamSeasonRollup_spec_witness :
    (∃ r ∈ (updateTeamSeasonRollup 10 League.MENS ("2025-26") exDBC2).rollups,
      r.teamId = 10) ∧
    updateTeamSeasonRollup 10 League.MENS ("2025-26")
        (updateTeamSeasonRollup 10 League.MENS ("2025-26") exDBC2) =
      updateTeamSeasonRollup 10 League.MENS ("2025-26") exDBC2 :=
  ⟨(updateTeamSeasonRollup_spec 10 League.MENS ("2025-26") exDBC2).1,
   (updateTeamSeasonRollup_spec 10 League.MENS ("2025-26") exDBC2).2.2⟩

/-! ## Claim C3: national-averages builder -/


/-- The qualifying rollups read by the national-averages builder: same
league and season, at least one game played. -/
def natRollups (db : DB) (league : League) (season : String) : List TeamSeasonRollup :=
  db.rollups.filter (fun r =>
    r.league == league && r.season == season && decide (0 < r.gamesPlayed))

/-- Sum of one integer column over rollup rows. -/
def sumRollupBy (rows : List TeamSeasonRollup) (f : TeamSeasonRollup → Int) : Int :=
  (rows.map f).sum

/-- The games-played denominator of the weighted average. -/
def totalGamesOf (rows : List TeamSeasonRollup) : Nat :=
  (rows.map (fun r => r.gamesPlayed)).sum

/-- Per-league core of buildNationalAverages: none when no qualifying
rollup, else every per-game category is the total sum divided by the total
games played (guarded exactly as the source ternary), and the derived
points figure is 2 avg2PtMade + 3 avg3PtMade + avgFtMade. -/
def buildLeagueAverages (rollups : List TeamSeasonRollup) : Option NationalAveragesData :=
  if rollups.length = 0 then none
  else
    let totalGames := totalGamesOf rollups
    let avg := fun (total : Int) =>
      if 0 < totalGames then (total : ℚ) / (totalGames : ℚ) else 0
    let natOff2ptmPg := avg (sumRollupBy rollups (fun r => r.off2ptmTotal))
    let natOff2ptaPg := avg (sumRollupBy rollups (fun r => r.off2ptaTotal))
    let natOff3ptmPg := avg (sumRollupBy rollups (fun r => r.off3ptmTotal))
    let natOff3ptaPg := avg (sumRollupBy rollups (fun r => r.off3ptaTotal))
    let natOffFtmPg := avg (sumRollupBy rollups (fun r => r.offFtmTotal))
    let natOffFtaPg := avg (sumRollupBy rollups (fun r => r.offFtaTotal))
    let natDef2ptmAllowedPg := avg (sumRollupBy rollups (fun r => r.def2ptmAllowedTotal))
    let natDef2ptaAllowedPg := avg (sumRollupBy rollups (fun r => r.def2ptaAllowedTotal))
    let natDef3ptmAllowedPg := avg (sumRollupBy rollups (fun r => r.def3ptmAllowedTotal))
    let natDef3ptaAllowedPg := avg (sumRollupBy rollups (fun r => r.def3ptaAllowedTotal))
    let natDefFtmAllowedPg := avg (sumRollupBy rollups (fun r => r.defFtmAllowedTotal))
    let natDefFtaAllowedPg := avg (sumRollupBy rollups (fun r => r.defFtaAllowedTotal))
    let natPointsPgPerTeam := 2 * natOff2ptmPg + 3 * natOff3ptmPg + natOffFtmPg
    some
      { natOff2ptmPg := natOff2ptmPg, natOff2ptaPg := natOff2ptaPg
        natOff3ptmPg := natOff3ptmPg, natOff3ptaPg := natOff3ptaPg
        natOffFtmPg := natOffFtmPg, natOffFtaPg := natOffFtaPg
        natDef2ptmAllowedPg := natDef2ptmAllowedPg
        natDef2ptaAllowedPg := natDef2ptaAllowedPg
        natDef3ptmAllowedPg := natDef3ptmAllowedPg
        natDef3ptaAllowedPg := natDef3ptaAllowedPg
        natDefFtmAllowedPg := natDefFtmAllowedPg
        natDefFtaAllowedPg := natDefFtaAllowedPg
        natPointsPgPerTeam := natPointsPgPerTeam }

/-- The nationalAverages.upsert keyed by (league, season). -/
def upsertNationalAverages (league : League) (season : String) (d : NationalAveragesData)
    (rows : List NationalAveragesRow) : List NationalAveragesRow :=
  if rows.any (fun r => r.league == league && r.season == season) then
    rows.map (fun r =>
      if r.league == league && r.season == season then { r with data := d } else r)
  else rows ++ [{ league := league, season := season, data := d }]

/-- One league of buildNationalAverages: skip entirely when no qualifying
rollup (stale prior averages are left untouched), else upsert the single
(league, season) row. -/
def buildNationalAveragesForLeague (league : League) (season : String) (db : DB) : DB :=
  match buildLeagueAverages (natRollups db league season) with
  | none => db
  | some d => { db with nationals := upsertNationalAverages league season d db.nationals }

/-- buildNationalAverages: both leagues for the current season. -/
def buildNationalAverages (season : String) (db : DB) : DB :=
  buildNationalAveragesForLeague League.WOMENS season
    (buildNationalAveragesForLeague League.MENS season db)

theorem upsertNationalAverages_spec (league : League) (season : String)
    (d : NationalAveragesData) (rows : List NationalAveragesRow) :
    (∀ r ∈ upsertNationalAverages league season d rows,
      r.league = league → r.season = season → r.data = d) ∧
    (∃ r ∈ upsertNationalAverages league season d rows,
      r.league = league ∧ r.season = season ∧ r.data = d) := by
  unfold upsertNationalAverages
  by_cases hany : rows.any (fun r => r.league == league && r.season == season) = true
  · rw [if_pos hany]
    constructor
    · intro r hr hlg hsn
      obtain ⟨r0, hr0, rfl⟩ := List.mem_map.mp hr
      by_cases hb : (r0.league == league && r0.season == season) = true
      · rw [if_pos hb]
      · rw [if_neg hb] at hlg hsn
        exact absurd (by simp [hlg, hsn]) hb
    · obtain ⟨r0, hr0, hb⟩ := List.any_eq_true.mp hany
      refine ⟨_, List.mem_map_of_mem _ hr0, ?_⟩
      rw [if_pos hb]
      simp only [Bool.and_eq_true, beq_iff_eq] at hb
      exact ⟨hb.1, hb.2, rfl⟩
  · rw [if_neg hany]
    constructor
    · intro r hr hlg hsn
      rcases List.mem_append.mp hr with hl | hrr
      · exact absurd (List.any_eq_true.mpr ⟨r, hl, by simp [hlg, hsn]⟩) hany
      · have hr2 : r = { league := league, season := season, data := d } := by simpa using hrr
        rw [hr2]
    · exact ⟨{ league := league, season := season, data := d }, by simp, rfl, rfl, rfl⟩

/-- Claim C3: with at least one qualifying rollup, the builder computes
every per-game category as the sum of team totals divided by the sum of
gamesPlayed (games-played-weighted), derives points as 2 avg2PtMade +
3 avg3PtMade + avgFtMade, and stores exactly that record under the
(league, season) key. -/
theorem buildNationalAverages_weighted (league : League) (season : String) (db : DB)
    (hne : natRollups db league season ≠ []) :
    0 < totalGamesOf (natRollups db league season) ∧
    ∃ d, buildLeagueAverages (natRollups db league season) = some d ∧
      d.natOff2ptmPg = (sumRollupBy (natRollups db league season) (fun r => r.off2ptmTotal) : ℚ) /
        (totalGamesOf (natRollups db league season) : ℚ) ∧
      d.natOff2ptaPg = (sumRollupBy (natRollups db league season) (fun r => r.off2ptaTotal) : ℚ) /
        (totalGamesOf (natRollups db league season) : ℚ) ∧
      d.natOff3ptmPg = (sumRollupBy (natRollups db league season) (fun r => r.off3ptmTotal) : ℚ) /
        (totalGamesOf (natRollups db league season) : ℚ) ∧
      d.natOff3ptaPg = (sumRollupBy (natRollups db league season) (fun r => r.off3ptaTotal) : ℚ) /
        (totalGamesOf (natRollups db league season) : ℚ) ∧
      d.natOffFtmPg = (sumRollupBy (natRollups db league season) (fun r => r.offFtmTotal) : ℚ) /
        (totalGamesOf (natRollups db league season) : ℚ) ∧
      d.natOffFtaPg = (sumRollupBy (natRollups db league season) (fun r => r.offFtaTotal) : ℚ) /
        (totalGamesOf (natRollups db league season) : ℚ) ∧
      d.natDef2ptmAllowedPg =
        (sumRollupBy (natRollups db league season) (fun r => r.def2ptmAllowedTotal) : ℚ) /
        (totalGamesOf (natRollups db league season) : ℚ) ∧
      d.natDef2ptaAllowedPg =
        (sumRollupBy (natRollups db league season) (fun r => r.def2ptaAllowedTotal) : ℚ) /
        (totalGamesOf (natRollups db league season) : ℚ) ∧
      d.natDef3ptmAllowedPg =
        (sumRollupBy (natRollups db league season) (fun r => r.def3ptmAllowedTotal) : ℚ) /
        (totalGamesOf (natRollups db league season) : ℚ) ∧
      d.natDef3ptaAllowedPg =
        (sumRollupBy (natRollups db league season) (fun r => r.def3ptaAllowedTotal) : ℚ) /
        (totalGamesOf (natRollups db league season) : ℚ) ∧
      d.natDefFtmAllowedPg =
        (sumRollupBy (natRollups db league season) (fun r => r.defFtmAllowedTotal) : ℚ) /
        (totalGamesOf (natRollups db league season) : ℚ) ∧
      d.natDefFtaAllowedPg =
        (sumRollupBy (natRollups db league season) (fun r => r.defFtaAllowedTotal) : ℚ) /
        (totalGamesOf (natRollups db league season) : ℚ) ∧
      d.natPointsPgPerTeam = 2 * d.natOff2ptmPg + 3 * d.natOff3ptmPg + d.natOffFtmPg ∧
      (∀ r ∈ (buildNationalAveragesForLeague league season db).nationals,
        r.league = league → r.season = season → r.data = d) ∧
      (∃ r ∈ (buildNationalAveragesForLeague league season db).nationals,
        r.league = league ∧ r.season = season ∧ r.data = d) := by
  have hpos : ∀ r ∈ natRollups db league season, 0 < r.gamesPlayed := by
    intro r hr
    unfold natRollups at hr
    rw [List.mem_filter] at hr
    have := hr.2
    simp only [Bool.and_eq_true, decide_eq_true_eq] at this
    exact this.2
  have htot : 0 < totalGamesOf (natRollups db league season) := by
    cases hq : natRollups db league season with
    | nil => exact absurd hq hne
    | cons r rest =>
        have hr : 0 < r.gamesPlayed := hpos r (by rw [hq]; exact List.mem_cons_self _ _)
        unfold totalGamesOf
        rw [List.map_cons, List.sum_cons]
        omega
  have hlen : ¬(natRollups db league season).length = 0 := by
    intro h
    exact hne (List.length_eq_zero.mp h)
  have hbuild : buildLeagueAverages (natRollups db league season) = some
      { natOff2ptmPg := (sumRollupBy (natRollups db league season) (fun r => r.off2ptmTotal) : ℚ) /
          (totalGamesOf (natRollups db league season) : ℚ)
        natOff2ptaPg := (sumRollupBy (natRollups db league season) (fun r => r.off2ptaTotal) : ℚ) /
          (totalGamesOf (natRollups db league season) : ℚ)
        natOff3ptmPg := (sumRollupBy (natRollups db league season) (fun r => r.off3ptmTotal) : ℚ) /
          (totalGamesOf (natRollups db league season) : ℚ)
        natOff3ptaPg := (sumRollupBy (natRollups db league season) (fun r => r.off3ptaTotal) : ℚ) /
          (totalGamesOf (natRollups db league season) : ℚ)
        natOffFtmPg := (sumRollupBy (natRollups db league season) (fun r => r.offFtmTotal) : ℚ) /
          (totalGamesOf (natRollups db league season) : ℚ)
        natOffFtaPg := (sumRollupBy (natRollups db league season) (fun r => r.offFtaTotal) : ℚ) /
          (totalGamesOf (natRollups db league season) : ℚ)
        natDef2ptmAllowedPg :=
          (sumRollupBy (natRollups db league season) (fun r => r.def2ptmAllowedTotal) : ℚ) /
          (totalGamesOf (natRollups db league season) : ℚ)
        natDef2ptaAllowedPg :=
          (sumRollupBy (natRollups db league season) (fun r => r.def2ptaAllowedTotal) : ℚ) /
          (totalGamesOf (natRollups db league season) : ℚ)
        natDef3ptmAllowedPg :=
          (sumRollupBy (natRollups db league season) (fun r => r.def3ptmAllowedTotal) : ℚ) /
          (totalGamesOf (natRollups db league season) : ℚ)
        natDef3ptaAllowedPg :=
          (sumRollupBy (natRollups db league season) (fun r => r.def3ptaAllowedTotal) : ℚ) /
          (totalGamesOf (natRollups db league season) : ℚ)
        natDefFtmAllowedPg :=
          (sumRollupBy (natRollups db league season) (fun r => r.defFtmAllowedTotal) : ℚ) /
          (totalGamesOf (natRollups db league season) : ℚ)
        natDefFtaAllowedPg :=
          (sumRollupBy (natRollups db league season) (fun r => r.defFtaAllowedTotal) : ℚ) /
          (totalGamesOf (natRollups db league season) : ℚ)
        natPointsPgPerTeam :=
          2 * ((sumRollupBy (natRollups db league season) (fun r => r.off2ptmTotal) : ℚ) /
            (totalGamesOf (natRollups db league season) : ℚ)) +
          3 * ((sumRollupBy (natRollups db league season) (fun r => r.off3ptmTotal) : ℚ) /
            (totalGamesOf (natRollups db league season) : ℚ)) +
          (sumRollupBy (natRollups db league season) (fun r => r.offFtmTotal) : ℚ) /
            (totalGamesOf (natRollups db league season) : ℚ) } := by
    unfold buildLeagueAverages
    rw [if_neg hlen]
    simp only [if_pos htot]
  refine ⟨htot, _, hbuild, rfl, rfl, rfl, rfl, rfl, rfl, rfl, rfl, rfl, rfl, rfl, rfl, rfl,
    ?_, ?_⟩
  · unfold buildNationalAveragesForLeague
    rw [hbuild]
    exact (upsertNationalAverages_spec league season _ db.nationals).1
  · unfold buildNationalAveragesForLeague
    rw [hbuild]
    exact (upsertNationalAverages_spec league season _ db.nationals).2

/-- First rollup of the C3 witness: 10 games, 200 two-point makes. -/
def exRollupA : TeamSeasonRollup :=
  { teamId := 1, league := League.MENS, season := "2025-26", gamesPlayed := 10
    off2ptmTotal := 200, off2ptaTotal := 400, off3ptmTotal := 80, off3ptaTotal := 220
    offFtmTotal := 150, offFtaTotal := 200, def2ptmAllowedTotal := 180
    def2ptaAllowedTotal := 380, def3ptmAllowedTotal := 70, def3ptaAllowedTotal := 210
    defFtmAllowedTotal := 140, defFtaAllowedTotal := 190 }

/-- Second rollup of the C3 witness: 5 games, 50 two-point makes. -/
def exRollupB : TeamSeasonRollup :=
  { teamId := 2, league := League.MENS, season := "2025-26", gamesPlayed := 5
    off2ptmTotal := 50, off2ptaTotal := 120, off3ptmTotal := 30, off3ptaTotal := 90
    offFtmTotal := 60, offFtaTotal := 80, def2ptmAllowedTotal := 55
    def2ptaAllowedTotal := 130, def3ptmAllowedTotal := 25, def3ptaAllowedTotal := 85
    defFtmAllowedTotal := 50, defFtaAllowedTotal := 70 }

/-- Store of the C3 witness. -/
def exDBC3 : DB :=
  { teams := [], games := [], stats := [], rollups := [exRollupA, exRollupB]
    nationals := [], nextId := 3 }

/-- Witness for C3 on the worked example of the specification: totals 200
over 10 games and 50 over 5 games give (200+50)/(10+5) = 50/3 ≈ 16.67, not
the unweighted mean 15. -/
theorem buildNationalAverages_weighted_witness :
    0 < totalGamesOf (natRollups exDBC3 League.MENS ("2025-26")) ∧
    (buildLeagueAverages (natRollups exDBC3 League.MENS ("2025-26"))).map
        (fun d => d.natOff2ptmPg) = some ((50 : ℚ) / 3) ∧
    ((50 : ℚ) / 3) ≠ 15 := by
  obtain ⟨htot, d, hbuild, h1, hrest⟩ :=
    buildNationalAverages_weighted League.MENS ("2025-26") exDBC3 (by decide)
  refine ⟨htot, ?_, by norm_num⟩
  rw [hbuild, Option.map_some']
  have hsum : sumRollupBy (natRollups exDBC3 League.MENS ("2025-26"))
      (fun r => r.off2ptmTotal) = 250 := by decide
  have htg : totalGamesOf (natRollups exDBC3 League.MENS ("2025-26")) = 15 := by decide
  rw [h1, hsum, htg]
  norm_num
